import Mathlib

/-!
Shallow embedding of the Vermillion logo-generation batch client
(`generate_logo.py` and `generate_round3.py`).

Network effects are modelled by an explicit environment (`NetEnv`) giving the
outcome of the primary POST, the fallback POST and the optional URL download
for one per-image generation attempt; the filesystem is an association list
from paths to byte payloads; Python exceptions that the code does not catch
are modelled with `Except Exc`. Byte strings are lists of naturals. The
base64 decoder and the PIL image-decodability check are external library
calls and enter the model as parameters of the ambient `World`. Observable
behaviour (HTTP posts, URL downloads, pacing pauses, log lines) is recorded
in an event trace.
-/

namespace Vermillion

/-- Byte payloads (Python `bytes`). -/
abbrev Bytes := List Nat

/-- Filesystem: association list from path to file contents; the head of the
list is the most recently written file. -/
abbrev FS := List (String × Bytes)

/-- Lookup of a path in the modelled filesystem (most recent write wins,
matching Python `open(path, "wb")` truncation semantics). -/
def lookupFS : FS → String → Option Bytes
  | [], _ => none
  | (q, b) :: fs, p => if p = q then some b else lookupFS fs p

/-- `output_path.exists()` in the model. -/
def fileExists (fs : FS) (p : String) : Bool := (lookupFS fs p).isSome

/-- The JSON payload posted to the images endpoint
(`generate_logo.py` lines 177-184; the fallback branch mutates
`model`, drops `output_format` and adds `response_format`). -/
structure Payload where
  model : String
  prompt : String
  size : String
  quality : String
  n : Nat
  output_format : Option String
  response_format : Option String
deriving Repr, DecidableEq

/-- One item of the response `data` array: it may carry `b64_json`,
`url`, both, or neither. -/
structure RespItem where
  b64_json : Option String
  url : Option String
deriving Repr, DecidableEq

/-- A parsed success-response body: `data` is absent or a list of items. -/
structure RespBody where
  data : Option (List RespItem)
deriving Repr, DecidableEq

/-- Outcome of one POST to the generations endpoint, as seen by the client:
a 2xx response with a parsed body, a non-2xx status (which
`raise_for_status` turns into `httpx.HTTPStatusError`), or a
transport-level failure (`httpx.TransportError` and kin). -/
inductive PostOutcome
  | success (body : RespBody)
  | httpError (status : Nat) (text : String)
  | transportError
deriving Repr, DecidableEq

/-- Outcome of the optional GET that downloads `item["url"]`. -/
inductive GetOutcome
  | success (content : Bytes)
  | httpError (status : Nat) (text : String)
  | transportError
deriving Repr, DecidableEq

/-- The network environment of a single per-image generation attempt. -/
structure NetEnv where
  primary : PostOutcome
  fallback : PostOutcome
  download : GetOutcome
deriving Repr, DecidableEq

/-- Python exceptions that escape the code uncaught. `decodeError` stands
for the exception raised by `PIL.Image.open` on bytes that are not a valid
image. -/
inductive Exc
  | httpStatusError (status : Nat) (text : String)
  | transportError
  | decodeError
deriving Repr, DecidableEq

/-- The log lines the scripts print, reduced to the data they carry. -/
inductive LogMsg
  | apiError (status : Nat) (truncatedBody : String)
  | tryingFallback
  | fallbackFailed (status : Nat) (truncatedBody : String)
  | unexpectedFormat
  | generating (i : Nat)
  | skipping (i : Nat)
  | failedVariation (i : Nat)
deriving Repr, DecidableEq

/-- Observable events of a run, in order: HTTP posts, URL downloads,
pacing pauses (duration in tenths of a second, so `time.sleep(1)` is
`sleep 10` and `time.sleep(1.5)` is `sleep 15`), and log lines. -/
inductive Event
  | post (p : Payload)
  | get (url : String)
  | sleep (tenths : Nat)
  | log (m : LogMsg)
deriving Repr, DecidableEq

def isNetCall : Event → Bool
  | Event.post _ => true
  | Event.get _ => true
  | _ => false

def isSleep : Event → Bool
  | Event.sleep _ => true
  | _ => false

/-- Network calls and pacing pauses of a trace, log lines dropped. -/
def isObs (e : Event) : Bool := isNetCall e || isSleep e

-- Module-level constants of both scripts.

def API_URL : String := "https://api.openai.com/v1/images/generations"
def MODEL : String := "gpt-image-1"
def FALLBACK_MODEL : String := "dall-e-3"

/-- Shared tail of `generate_image` (lines 209-224 of `generate_logo.py`,
378-390 of `generate_round3.py`): given a parsed 2xx body, take the first
`data` item; decode `b64_json` if present, else download `url` if present
(the download `raise_for_status` is NOT inside any `try`, so its errors
propagate), else print the unexpected-format line and return `None`. -/
def extractResult (decode : String → Bytes) (env : NetEnv) (body : RespBody)
    (evs : List Event) : Except Exc (Option Bytes) × List Event :=
  match body.data with
  | some (item :: _) =>
    match item.b64_json with
    | some s => (Except.ok (some (decode s)), evs)
    | none =>
      match item.url with
      | some u =>
        match env.download with
        | GetOutcome.success content => (Except.ok (some content), evs ++ [Event.get u])
        | GetOutcome.httpError st txt =>
            (Except.error (Exc.httpStatusError st txt), evs ++ [Event.get u])
        | GetOutcome.transportError => (Except.error Exc.transportError, evs ++ [Event.get u])
      | none => (Except.ok none, evs ++ [Event.log LogMsg.unexpectedFormat])
  | some [] => (Except.ok none, evs ++ [Event.log LogMsg.unexpectedFormat])
  | none => (Except.ok none, evs ++ [Event.log LogMsg.unexpectedFormat])

/-- `generate_image`, generalised over the two module-level model-name
constants so that the `MODEL != FALLBACK_MODEL` guard can be studied on
both branches. Only `httpx.HTTPStatusError` from the two POSTs is caught;
transport errors propagate (the surrounding code has no handler for
them). Returns the Python return value (`Option Bytes`, with `none` for
the logged per-image failure) inside `Except Exc` together with the event
trace of the attempt. -/
def generate_image_core (model fallback_model : String) (decode : String → Bytes)
    (env : NetEnv) (prompt : String) (size : String) (quality : String) :
    Except Exc (Option Bytes) × List Event :=
  let payload : Payload :=
    { model := model, prompt := prompt, size := size, quality := quality,
      n := 1, output_format := some "png", response_format := none }
  match env.primary with
  | PostOutcome.success body => extractResult decode env body [Event.post payload]
  | PostOutcome.transportError => (Except.error Exc.transportError, [Event.post payload])
  | PostOutcome.httpError st txt =>
    let evs := [Event.post payload, Event.log (LogMsg.apiError st (txt.take 300))]
    if model ≠ fallback_model then
      let payload2 : Payload :=
        { payload with model := fallback_model, output_format := none,
                       response_format := some "b64_json" }
      let evs := evs ++ [Event.log LogMsg.tryingFallback, Event.post payload2]
      match env.fallback with
      | PostOutcome.success body => extractResult decode env body evs
      | PostOutcome.httpError st2 txt2 =>
          (Except.ok none, evs ++ [Event.log (LogMsg.fallbackFailed st2 (txt2.take 300))])
      | PostOutcome.transportError => (Except.error Exc.transportError, evs)
    else
      (Except.ok none, evs)

/-- `generate_image` with the scripts' actual model constants. -/
def generate_image (decode : String → Bytes) (env : NetEnv) (prompt : String)
    (size : String := "1024x1024") (quality : String := "high") :
    Except Exc (Option Bytes) × List Event :=
  generate_image_core MODEL FALLBACK_MODEL decode env prompt size quality

-- Output paths.

/-- Fuel-driven core of decimal printing: the digit characters of `n`,
most significant first, correct whenever `n ≤ fuel`. Structural recursion
on the fuel keeps it kernel-reducible. -/
def natCharsCore : Nat → Nat → List Char
  | 0, _ => []
  | fuel + 1, n =>
    if n = 0 then [] else natCharsCore fuel (n / 10) ++ [Nat.digitChar (n % 10)]

/-- Decimal digit characters of a natural number, most significant first
(the semantics of Python `str(n)` on a natural). -/
def natChars (n : Nat) : List Char :=
  if n = 0 then ['0'] else natCharsCore n n

/-- Python `f"{i:02d}"`: the decimal digits of `i`, left-padded with `'0'`
to width 2 (numbers of three or more digits are kept whole). -/
def pad2chars (i : Nat) : List Char :=
  if i < 10 then '0' :: natChars i else natChars i

def pad2 (i : Nat) : String := String.mk (pad2chars i)

/-- `CONCEPT_DIRS` of `generate_logo.py` (a Python dict with keys 1-4;
other keys would raise `KeyError` and never occur, argparse restricts
`--concept` to 1-4). -/
def CONCEPT_DIRS : Nat → String
  | 1 => "concepts/01-kiln-mark"
  | 2 => "concepts/02-earthen-strata"
  | 3 => "concepts/03-winding-path"
  | 4 => "concepts/04-vermillion-leaf"
  | _ => ""

/-- The variation filename `f"v{i:02d}.png"` (line 253 of
`generate_logo.py`). -/
def variationFilename (i : Nat) : String := "v" ++ pad2 i ++ ".png"

/-- `output_path = base_dir / CONCEPT_DIRS[concept_id] / filename`
(lines 240 and 254 of `generate_logo.py`), with `Path` slash-joining
rendered as string concatenation. -/
def conceptOutputPath (baseDir : String) (cid : Nat) (i : Nat) : String :=
  baseDir ++ "/" ++ CONCEPT_DIRS cid ++ "/" ++ variationFilename i

/-- `OUTPUT_DIR / f"{key}.png"` of `generate_round3.py` (lines 32 and
415-416), with `OUTPUT_DIR = Path(__file__).parent / "concepts" / "round3"`. -/
def round3OutputPath (baseDir : String) (key : String) : String :=
  baseDir ++ "/concepts/round3/" ++ key ++ ".png"

-- Variation hints.

/-- `variation_hints` (lines 266-272 of `generate_logo.py`). -/
def variation_hints : List String :=
  [" Explore a different compositional arrangement.",
   " Try a bolder, more minimal interpretation.",
   " Emphasize the typography more prominently.",
   " Make the mark/icon more abstract and simplified.",
   " Try a horizontal lockup layout."]

/-- The prompt sent for variation `i` (lines 263-275): the base prompt
unmodified for `i = 1`, else the base prompt with the rotating hint at
index `(i - 2) % len(variation_hints)` appended. -/
def variationPrompt (basePrompt : String) (i : Nat) : String :=
  if 1 < i then
    basePrompt ++ variation_hints.getD ((i - 2) % variation_hints.length) ""
  else
    basePrompt

-- Persistence.

/-- `save_image` (lines 227-234 of `generate_logo.py`): create parent
directories (no-op in the file model), write the bytes to the path, and
only then open the bytes with PIL to verify they decode as an image.
The write happens unconditionally; a decode failure raises after the
file is already on disk. -/
def save_image (valid : Bytes → Bool) (image_bytes : Bytes) (output_path : String)
    (fs : FS) : Except Exc Unit × FS :=
  let fs2 : FS := (output_path, image_bytes) :: fs
  if valid image_bytes then (Except.ok (), fs2) else (Except.error Exc.decodeError, fs2)

/-- The inline persist step of `generate_round3.py` `main` (lines 430-434):
mkdir, write bytes, then `Image.open` validation — same order as
`save_image`. -/
def round3_persist (valid : Bytes → Bool) (image_bytes : Bytes) (output_path : String)
    (fs : FS) : Except Exc Unit × FS :=
  let fs2 : FS := (output_path, image_bytes) :: fs
  if valid image_bytes then (Except.ok (), fs2) else (Except.error Exc.decodeError, fs2)

-- The batch loops.

/-- External facts a run depends on: the network outcomes of each
iteration's generation attempt, the base64 decoder, and PIL
image-decodability. -/
structure World where
  net : Nat → NetEnv
  decode : String → Bytes
  valid : Bytes → Bool

/-- The mutable state of one batch run: the filesystem, the success
counter, and the event trace so far. -/
structure LoopState where
  fs : FS
  success_count : Nat
  events : List Event
deriving Repr, DecidableEq

/-- `if i < variations: time.sleep(1)` (lines 285-287): the unconditional
pacing pause at the end of every non-skipped iteration except the last
index. -/
def addPacing (tenths variations i : Nat) (st : LoopState) : LoopState :=
  if i < variations then { st with events := st.events ++ [Event.sleep tenths] } else st

/-- One iteration of the `run_concept` loop (lines 251-287 of
`generate_logo.py`) for variation index `i`: skip-and-count if the
computed path exists (`continue` also skips the pacing pause); otherwise
build the variation prompt, call `generate_image`, persist on success
(incrementing the counter), log the failure on `None`, and pace. Uncaught
exceptions from `generate_image` or `save_image` abort via
`Except.error`. -/
def runStep (w : World) (baseDir : String) (cid : Nat) (basePrompt : String)
    (variations : Nat) (size : String) (quality : String)
    (st : LoopState) (i : Nat) : Except Exc LoopState :=
  let output_path := conceptOutputPath baseDir cid i
  if fileExists st.fs output_path then
    Except.ok { st with success_count := st.success_count + 1,
                        events := st.events ++ [Event.log (LogMsg.skipping i)] }
  else
    let prompt := variationPrompt basePrompt i
    let r := generate_image w.decode (w.net i) prompt size quality
    let stg : LoopState :=
      { st with events := st.events ++ [Event.log (LogMsg.generating i)] ++ r.2 }
    match r.1 with
    | Except.error e => Except.error e
    | Except.ok none =>
        Except.ok (addPacing 10 variations i
          { stg with events := stg.events ++ [Event.log (LogMsg.failedVariation i)] })
    | Except.ok (some image_bytes) =>
        let s := save_image w.valid image_bytes output_path stg.fs
        match s.1 with
        | Except.error e => Except.error e
        | Except.ok _ =>
            Except.ok (addPacing 10 variations i
              { stg with fs := s.2, success_count := stg.success_count + 1 })

/-- `run_concept` (lines 237-289): iterate variation indices 1 to
`variations` with a zero success counter, starting from filesystem `fs0`.
`basePrompt` stands for `CONCEPT_PROMPTS[concept_id]["prompt"]` (opaque
literal text). -/
def runConcept (w : World) (baseDir : String) (cid : Nat) (basePrompt : String)
    (variations : Nat) (size : String) (quality : String) (fs0 : FS) :
    Except Exc LoopState :=
  (List.range' 1 variations).foldlM
    (runStep w baseDir cid basePrompt variations size quality)
    { fs := fs0, success_count := 0, events := [] }

/-- One iteration of the `generate_round3.py` `main` loop (lines 414-441)
for `(i, key)` from `enumerate(keys_to_run, 1)`: skip-and-count if
`<key>.png` exists, else generate with the key's prompt at default size
and quality, persist inline, and pace with `time.sleep(1.5)` when
`i < total`. -/
def round3Step (w : World) (baseDir : String) (promptOf : String → String)
    (total : Nat) (st : LoopState) (ik : Nat × String) : Except Exc LoopState :=
  let i := ik.1
  let key := ik.2
  let output_path := round3OutputPath baseDir key
  if fileExists st.fs output_path then
    Except.ok { st with success_count := st.success_count + 1,
                        events := st.events ++ [Event.log (LogMsg.skipping i)] }
  else
    let r := generate_image w.decode (w.net i) (promptOf key) "1024x1024" "high"
    let stg : LoopState :=
      { st with events := st.events ++ [Event.log (LogMsg.generating i)] ++ r.2 }
    match r.1 with
    | Except.error e => Except.error e
    | Except.ok none =>
        Except.ok (addPacing 15 total i
          { stg with events := stg.events ++ [Event.log (LogMsg.failedVariation i)] })
    | Except.ok (some image_bytes) =>
        let s := round3_persist w.valid image_bytes output_path stg.fs
        match s.1 with
        | Except.error e => Except.error e
        | Except.ok _ =>
            Except.ok (addPacing 15 total i
              { stg with fs := s.2, success_count := stg.success_count + 1 })

/-- The `generate_round3.py` `main` batch loop over the selected keys.
`promptOf` stands for the `PROMPTS` dict lookup (opaque literal text). -/
def round3Main (w : World) (baseDir : String) (promptOf : String → String)
    (keys : List String) (fs0 : FS) : Except Exc LoopState :=
  (List.enumFrom 1 keys).foldlM (round3Step w baseDir promptOf keys.length)
    { fs := fs0, success_count := 0, events := [] }

def isPost : Event → Bool
  | Event.post _ => true
  | _ => false

def isGet : Event → Bool
  | Event.get _ => true
  | _ => false

/-- The payload of the primary request (lines 177-184). -/
def basePayload (model prompt size quality : String) : Payload :=
  { model := model, prompt := prompt, size := size, quality := quality,
    n := 1, output_format := some "png", response_format := none }

/-- The payload after the fallback mutation (lines 197-199): model swapped,
`output_format` popped, `response_format` set to `b64_json`, prompt and the
other fields untouched. -/
def fallbackPayload (fallback_model prompt size quality : String) : Payload :=
  { model := fallback_model, prompt := prompt, size := size, quality := quality,
    n := 1, output_format := none, response_format := some "b64_json" }

/-! Concrete fixtures for scenario conjuncts, witnesses and
counterexamples. -/

/-- The event trace of a finished run (empty for an aborted run). -/
def runEvents : Except Exc LoopState → List Event
  | Except.ok st => st.events
  | Except.error _ => []

/-- A response body carrying an inline base64 payload. -/
def okBody : RespBody := { data := some [{ b64_json := some "B", url := none }] }

/-- A network environment in which every call succeeds with `okBody`. -/
def envOK : NetEnv :=
  { primary := PostOutcome.success okBody,
    fallback := PostOutcome.success okBody,
    download := GetOutcome.success [9] }

/-- A world in which every generation succeeds inline. -/
def wOK : World :=
  { net := fun _ => envOK, decode := fun _ => [7], valid := fun _ => true }

/-- A world whose primary call always fails at transport level. -/
def wTransport : World :=
  { net := fun _ => { primary := PostOutcome.transportError,
                      fallback := PostOutcome.success okBody,
                      download := GetOutcome.success [9] },
    decode := fun _ => [7], valid := fun _ => true }

/-- A world whose primary and fallback calls both return HTTP 500. -/
def wHttpFail : World :=
  { net := fun _ => { primary := PostOutcome.httpError 500 "boom",
                      fallback := PostOutcome.httpError 503 "fallback boom",
                      download := GetOutcome.success [9] },
    decode := fun _ => [7], valid := fun _ => true }

/-! Injectivity of the decimal filename component. -/

theorem natCharsCore_eq_digits :
    ∀ (fuel n : Nat), n ≤ fuel →
      natCharsCore fuel n = ((Nat.digits 10 n).map Nat.digitChar).reverse := by
  intro fuel
  induction fuel with
  | zero =>
    intro n h
    have hn : n = 0 := Nat.le_zero.mp h
    subst hn
    simp [natCharsCore]
  | succ fuel ih =>
    intro n h
    by_cases hn : n = 0
    · subst hn; simp [natCharsCore]
    · have hlt : n / 10 < n := Nat.div_lt_self (Nat.pos_of_ne_zero hn) (by norm_num)
      have hd : Nat.digits 10 n = n % 10 :: Nat.digits 10 (n / 10) :=
        Nat.digits_def' (by norm_num) (Nat.pos_of_ne_zero hn)
      have : natCharsCore (fuel + 1) n =
          natCharsCore fuel (n / 10) ++ [Nat.digitChar (n % 10)] := by
        simp [natCharsCore, hn]
      rw [this, ih (n / 10) (by omega), hd]
      simp

theorem natChars_eq_digits (n : Nat) :
    natChars n = if n = 0 then ['0'] else ((Nat.digits 10 n).map Nat.digitChar).reverse := by
  unfold natChars
  by_cases hn : n = 0
  · simp [hn]
  · simp [hn, natCharsCore_eq_digits n n le_rfl]

theorem digitChar_inj_lt10 : ∀ a : Fin 10, ∀ b : Fin 10,
    Nat.digitChar a.val = Nat.digitChar b.val → a = b := by decide

theorem digitChar_injOn {a b : Nat} (ha : a < 10) (hb : b < 10)
    (h : Nat.digitChar a = Nat.digitChar b) : a = b := by
  have := digitChar_inj_lt10 ⟨a, ha⟩ ⟨b, hb⟩ h
  exact congrArg Fin.val this

theorem map_digitChar_inj :
    ∀ (l1 l2 : List Nat), (∀ d ∈ l1, d < 10) → (∀ d ∈ l2, d < 10) →
      l1.map Nat.digitChar = l2.map Nat.digitChar → l1 = l2 := by
  intro l1
  induction l1 with
  | nil => intro l2 _ _ h; cases l2 <;> simp_all
  | cons d t ih =>
    intro l2 h1 h2 h
    cases l2 with
    | nil => simp_all
    | cons d2 t2 =>
      simp only [List.map_cons, List.cons.injEq] at h
      have hd : d = d2 :=
        digitChar_injOn (h1 d (by simp)) (h2 d2 (by simp)) h.1
      have ht : t = t2 :=
        ih t2 (fun x hx => h1 x (by simp [hx])) (fun x hx => h2 x (by simp [hx])) h.2
      rw [hd, ht]

theorem digits_map_ne_singleton_zeroChar {n : Nat} (hn : n ≠ 0) :
    (Nat.digits 10 n).map Nat.digitChar ≠ ['0'] := by
  intro h
  have hne : Nat.digits 10 n ≠ [] := Nat.digits_ne_nil_iff_ne_zero.mpr hn
  cases hdig : Nat.digits 10 n with
  | nil => exact hne hdig
  | cons d t =>
    rw [hdig] at h
    simp only [List.map_cons, List.cons.injEq] at h
    have ht : t = [] := by
      cases t with
      | nil => rfl
      | cons _ _ => simp at h
    subst ht
    have hd0 : d = 0 := by
      have hdlt : d < 10 := Nat.digits_lt_base (by norm_num) (by rw [hdig]; simp)
      exact digitChar_injOn hdlt (by norm_num) (by simpa using h.1)
    have h0 := Nat.ofDigits_digits 10 n
    rw [hdig, hd0] at h0
    exact hn (by simpa [Nat.ofDigits] using h0.symm)

theorem natChars_inj : ∀ {m n : Nat}, natChars m = natChars n → m = n := by
  intro m n h
  rw [natChars_eq_digits, natChars_eq_digits] at h
  by_cases hm : m = 0 <;> by_cases hn : n = 0
  · omega
  · rw [if_pos hm, if_neg hn] at h
    exact absurd (by simpa using congrArg List.reverse h.symm)
      (digits_map_ne_singleton_zeroChar hn)
  · rw [if_neg hm, if_pos hn] at h
    exact absurd (by simpa using congrArg List.reverse h)
      (digits_map_ne_singleton_zeroChar hm)
  · rw [if_neg hm, if_neg hn] at h
    have hmap : (Nat.digits 10 m).map Nat.digitChar = (Nat.digits 10 n).map Nat.digitChar :=
      List.reverse_injective h
    have hdig : Nat.digits 10 m = Nat.digits 10 n :=
      map_digitChar_inj _ _
        (fun d hd => Nat.digits_lt_base (by norm_num) hd)
        (fun d hd => Nat.digits_lt_base (by norm_num) hd) hmap
    calc m = Nat.ofDigits 10 (Nat.digits 10 m) := (Nat.ofDigits_digits 10 m).symm
    _ = Nat.ofDigits 10 (Nat.digits 10 n) := by rw [hdig]
    _ = n := Nat.ofDigits_digits 10 n

theorem natChars_head_ne_zeroChar {n : Nat} (hn : n ≠ 0) :
    (natChars n).head? ≠ some '0' := by
  rw [natChars_eq_digits, if_neg hn]
  intro h
  rw [List.head?_reverse, List.getLast?_map] at h
  have hne : Nat.digits 10 n ≠ [] := Nat.digits_ne_nil_iff_ne_zero.mpr hn
  rw [List.getLast?_eq_getLast _ hne] at h
  have hchar : Nat.digitChar ((Nat.digits 10 n).getLast hne) = '0' := by
    simpa using h
  have hlt : (Nat.digits 10 n).getLast hne < 10 :=
    Nat.digits_lt_base (by norm_num) (List.getLast_mem hne)
  have h0 : ((Nat.digits 10 n).getLast hne) = 0 :=
    digitChar_injOn hlt (show (0 : Nat) < 10 by norm_num) (hchar.trans rfl)
  exact Nat.getLast_digit_ne_zero 10 hn h0

theorem pad2chars_inj : ∀ {m n : Nat}, pad2chars m = pad2chars n → m = n := by
  intro m n h
  unfold pad2chars at h
  by_cases hm : m < 10 <;> by_cases hn : n < 10
  · rw [if_pos hm, if_pos hn] at h
    exact natChars_inj (by simpa using h)
  · rw [if_pos hm, if_neg hn] at h
    have hn0 : n ≠ 0 := by omega
    have : (natChars n).head? = some '0' := by rw [← h]; rfl
    exact absurd this (natChars_head_ne_zeroChar hn0)
  · rw [if_neg hm, if_pos hn] at h
    have hm0 : m ≠ 0 := by omega
    have : (natChars m).head? = some '0' := by rw [h]; rfl
    exact absurd this (natChars_head_ne_zeroChar hm0)
  · rw [if_neg hm, if_neg hn] at h
    exact natChars_inj h

theorem pad2_inj : ∀ {m n : Nat}, pad2 m = pad2 n → m = n := by
  intro m n h
  exact pad2chars_inj (congrArg String.data h)

/-! Injectivity of the computed output paths. -/

theorem pad2_data (i : Nat) : (pad2 i).data = pad2chars i := rfl

theorem conceptOutputPath_data (b : String) (c i : Nat) :
    (conceptOutputPath b c i).data =
      b.data ++ '/' ::
        ((CONCEPT_DIRS c).data ++ '/' :: 'v' :: (pad2chars i ++ ['.', 'p', 'n', 'g'])) := by
  show (b ++ "/" ++ CONCEPT_DIRS c ++ "/" ++ ("v" ++ pad2 i ++ ".png")).data = _
  simp only [String.data_append, pad2_data, List.append_assoc]
  rfl

theorem dir_digit (c : Nat) (h1 : 1 ≤ c) (h2 : c ≤ 4) :
    10 < (CONCEPT_DIRS c).data.length ∧
      ((CONCEPT_DIRS c).data)[10]? = some (Nat.digitChar c) := by
  interval_cases c <;> exact ⟨by decide, by decide⟩

theorem conceptOutputPath_inj {b : String} {c c' i i' : Nat}
    (hc1 : 1 ≤ c) (hc2 : c ≤ 4) (hc1' : 1 ≤ c') (hc2' : c' ≤ 4)
    (h : conceptOutputPath b c i = conceptOutputPath b c' i') : c = c' ∧ i = i' := by
  have hd := congrArg String.data h
  rw [conceptOutputPath_data, conceptOutputPath_data] at hd
  have h1 := List.append_cancel_left hd
  injection h1 with _ h2
  obtain ⟨hlen, hat⟩ := dir_digit c hc1 hc2
  obtain ⟨hlen', hat'⟩ := dir_digit c' hc1' hc2'
  have h10 : ((CONCEPT_DIRS c).data ++ '/' :: 'v' :: (pad2chars i ++ ['.', 'p', 'n', 'g']))[10]? =
      ((CONCEPT_DIRS c').data ++ '/' :: 'v' :: (pad2chars i' ++ ['.', 'p', 'n', 'g']))[10]? := by
    rw [h2]
  rw [List.getElem?_append_left hlen, List.getElem?_append_left hlen', hat, hat'] at h10
  have hcc : c = c' := digitChar_injOn (by omega) (by omega) (Option.some.inj h10)
  subst hcc
  have h3 := List.append_cancel_left h2
  injection h3 with _ h4
  injection h4 with _ h5
  exact ⟨rfl, pad2chars_inj (List.append_cancel_right h5)⟩

theorem round3OutputPath_data (b : String) (k : String) :
    (round3OutputPath b k).data =
      (b.data ++ ("/concepts/round3/" : String).data) ++ (k.data ++ ['.', 'p', 'n', 'g']) := by
  show (b ++ "/concepts/round3/" ++ k ++ ".png").data = _
  simp only [String.data_append, List.append_assoc]

theorem round3OutputPath_inj {b k k' : String}
    (h : round3OutputPath b k = round3OutputPath b k') : k = k' := by
  have hd := congrArg String.data h
  rw [round3OutputPath_data, round3OutputPath_data] at hd
  exact String.ext (List.append_cancel_right (List.append_cancel_left hd))

/-! Structure of the `generate_image` event trace. -/

theorem extractResult_shape (decode : String → Bytes) (env : NetEnv) (body : RespBody)
    (evs : List Event) :
    ∃ t, (extractResult decode env body evs).2 = evs ++ t ∧
      t.filter isPost = [] ∧ t.filter isSleep = [] := by
  obtain ⟨d⟩ := body
  rcases d with _ | items
  · exact ⟨[Event.log LogMsg.unexpectedFormat], by simp [extractResult], rfl, rfl⟩
  · rcases items with _ | ⟨⟨b64, url⟩, rest⟩
    · exact ⟨[Event.log LogMsg.unexpectedFormat], by simp [extractResult], rfl, rfl⟩
    · rcases b64 with _ | s
      · rcases url with _ | u
        · exact ⟨[Event.log LogMsg.unexpectedFormat], by simp [extractResult], rfl, rfl⟩
        · rcases hdl : env.download with content | ⟨stat, txt⟩ | _
          · exact ⟨[Event.get u], by simp [extractResult, hdl], rfl, rfl⟩
          · exact ⟨[Event.get u], by simp [extractResult, hdl], rfl, rfl⟩
          · exact ⟨[Event.get u], by simp [extractResult, hdl], rfl, rfl⟩
      · exact ⟨[], by simp [extractResult], rfl, rfl⟩

/-- Every `generate_image` trace starts with the POST of the primary
payload and contains no pacing events. -/
theorem generate_core_shape (model fb : String) (decode : String → Bytes) (env : NetEnv)
    (prompt size quality : String) :
    ∃ t, (generate_image_core model fb decode env prompt size quality).2 =
        Event.post (basePayload model prompt size quality) :: t ∧
      t.filter isSleep = [] := by
  obtain ⟨prim, fb2, dl⟩ := env
  rcases prim with body | ⟨stat, txt⟩ | _
  · obtain ⟨t, ht, _, hs⟩ :=
      extractResult_shape decode ⟨PostOutcome.success body, fb2, dl⟩ body
        [Event.post (basePayload model prompt size quality)]
    exact ⟨t, by simpa [generate_image_core, basePayload] using ht, hs⟩
  · by_cases hne : model = fb
    · exact ⟨[Event.log (LogMsg.apiError stat (txt.take 300))],
        by simp [generate_image_core, basePayload, hne], rfl⟩
    · rcases fb2 with body | ⟨stat2, txt2⟩ | _
      · obtain ⟨t, ht, _, hs⟩ :=
          extractResult_shape decode
            ⟨PostOutcome.httpError stat txt, PostOutcome.success body, dl⟩ body
            [Event.post (basePayload model prompt size quality),
             Event.log (LogMsg.apiError stat (txt.take 300)),
             Event.log LogMsg.tryingFallback,
             Event.post (fallbackPayload fb prompt size quality)]
        refine ⟨[Event.log (LogMsg.apiError stat (txt.take 300)),
                 Event.log LogMsg.tryingFallback,
                 Event.post (fallbackPayload fb prompt size quality)] ++ t, ?_, ?_⟩
        · have hred : (generate_image_core model fb decode
              ⟨PostOutcome.httpError stat txt, PostOutcome.success body, dl⟩
              prompt size quality).2 =
              (extractResult decode
                ⟨PostOutcome.httpError stat txt, PostOutcome.success body, dl⟩ body
                [Event.post (basePayload model prompt size quality),
                 Event.log (LogMsg.apiError stat (txt.take 300)),
                 Event.log LogMsg.tryingFallback,
                 Event.post (fallbackPayload fb prompt size quality)]).2 := by
            simp [generate_image_core, hne, basePayload, fallbackPayload]
          rw [hred, ht]
          simp
        · simp [List.filter_append, hs, isSleep]
      · exact ⟨[Event.log (LogMsg.apiError stat (txt.take 300)),
                Event.log LogMsg.tryingFallback,
                Event.post (fallbackPayload fb prompt size quality),
                Event.log (LogMsg.fallbackFailed stat2 (txt2.take 300))],
          by simp [generate_image_core, hne, basePayload, fallbackPayload], rfl⟩
      · exact ⟨[Event.log (LogMsg.apiError stat (txt.take 300)),
                Event.log LogMsg.tryingFallback,
                Event.post (fallbackPayload fb prompt size quality)],
          by simp [generate_image_core, hne, basePayload, fallbackPayload], rfl⟩
  · exact ⟨[], by simp [generate_image_core, basePayload], rfl⟩

/-! Behaviour of one iteration of the `run_concept` loop. -/

theorem addPacing_success_count (t v i : Nat) (st : LoopState) :
    (addPacing t v i st).success_count = st.success_count := by
  unfold addPacing; split <;> rfl

theorem addPacing_fs (t v i : Nat) (st : LoopState) :
    (addPacing t v i st).fs = st.fs := by
  unfold addPacing; split <;> rfl

theorem addPacing_events_lt (t v i : Nat) (st : LoopState) (h : i < v) :
    (addPacing t v i st).events = st.events ++ [Event.sleep t] := by
  unfold addPacing; rw [if_pos h]

theorem addPacing_events_ge (t v i : Nat) (st : LoopState) (h : ¬ i < v) :
    (addPacing t v i st).events = st.events := by
  unfold addPacing; rw [if_neg h]

theorem fileExists_self (p : String) (b : Bytes) (fs : FS) :
    fileExists ((p, b) :: fs) p = true := by
  simp [fileExists, lookupFS]

theorem fileExists_cons_of (p q : String) (b : Bytes) (fs : FS)
    (h : fileExists fs p = true) : fileExists ((q, b) :: fs) p = true := by
  simp only [fileExists, lookupFS]
  split <;> simp_all [fileExists]

/-- The skip-due-to-exists branch: counts the variation as succeeded,
adds only a log line (no network call, no pacing pause), and leaves the
filesystem untouched. -/
theorem runStep_skip (w : World) (b : String) (c : Nat) (bp : String) (v : Nat)
    (s q : String) (st : LoopState) (i : Nat)
    (h : fileExists st.fs (conceptOutputPath b c i) = true) :
    runStep w b c bp v s q st i =
      Except.ok { st with success_count := st.success_count + 1,
                          events := st.events ++ [Event.log (LogMsg.skipping i)] } := by
  simp [runStep, h]

/-- Full description of the two non-skip outcomes that do not abort:
the generated-and-persisted case and the logged per-image failure. -/
theorem runStep_nonskip_cases (w : World) (b : String) (c : Nat) (bp : String) (v : Nat)
    (s q : String) (st : LoopState) (i : Nat) (st' : LoopState)
    (h : fileExists st.fs (conceptOutputPath b c i) = false)
    (hok : runStep w b c bp v s q st i = Except.ok st') :
    (∃ bts, (generate_image w.decode (w.net i) (variationPrompt bp i) s q).1 =
        Except.ok (some bts) ∧ w.valid bts = true ∧
      st' = addPacing 10 v i
        { st with fs := (conceptOutputPath b c i, bts) :: st.fs,
                  success_count := st.success_count + 1,
                  events := st.events ++ [Event.log (LogMsg.generating i)] ++
                    (generate_image w.decode (w.net i) (variationPrompt bp i) s q).2 }) ∨
    ((generate_image w.decode (w.net i) (variationPrompt bp i) s q).1 = Except.ok none ∧
      st' = addPacing 10 v i
        { st with events := st.events ++ [Event.log (LogMsg.generating i)] ++
            (generate_image w.decode (w.net i) (variationPrompt bp i) s q).2 ++
            [Event.log (LogMsg.failedVariation i)] }) := by
  rw [runStep] at hok
  rw [h] at hok
  simp only [Bool.false_eq_true, if_false] at hok
  rcases hr : (generate_image w.decode (w.net i) (variationPrompt bp i) s q).1 with e | ob
  · rw [hr] at hok; exact absurd hok (by simp)
  · rw [hr] at hok
    rcases ob with _ | bts
    · right
      refine ⟨rfl, ?_⟩
      simpa using hok.symm
    · left
      rcases hv : w.valid bts with _ | _
      · exfalso
        simp only [save_image, hv, Bool.false_eq_true, if_false] at hok
        exact absurd hok (by simp)
      · refine ⟨bts, rfl, hv, ?_⟩
        simp only [save_image, hv, if_true] at hok
        simpa using hok.symm

/-- An aborting (uncaught-exception) iteration: transport error from the
primary call propagates out of the loop. -/
theorem runStep_primary_transport (w : World) (b : String) (c : Nat) (bp : String)
    (v : Nat) (s q : String) (st : LoopState) (i : Nat)
    (h : fileExists st.fs (conceptOutputPath b c i) = false)
    (hp : (w.net i).primary = PostOutcome.transportError) :
    runStep w b c bp v s q st i = Except.error Exc.transportError := by
  simp [runStep, h, generate_image, generate_image_core, hp]

theorem runStep_ok_bounds {w : World} {b : String} {c : Nat} {bp : String} {v : Nat}
    {s q : String} {st : LoopState} {i : Nat} {st' : LoopState}
    (h : runStep w b c bp v s q st i = Except.ok st') :
    st.success_count ≤ st'.success_count ∧ st'.success_count ≤ st.success_count + 1 := by
  by_cases hex : fileExists st.fs (conceptOutputPath b c i) = true
  · rw [runStep_skip w b c bp v s q st i hex] at h
    have := Except.ok.inj h
    rw [← this]
    constructor <;> simp
  · have hcases := runStep_nonskip_cases w b c bp v s q st i st'
      (by simpa using hex) h
    rcases hcases with ⟨bts, _, _, hst⟩ | ⟨_, hst⟩ <;>
      rw [hst, addPacing_success_count] <;> constructor <;> simp

theorem runStep_ok_fs_mono {w : World} {b : String} {c : Nat} {bp : String} {v : Nat}
    {s q : String} {st : LoopState} {i : Nat} {st' : LoopState}
    (h : runStep w b c bp v s q st i = Except.ok st') :
    ∀ p, fileExists st.fs p = true → fileExists st'.fs p = true := by
  intro p hp
  by_cases hex : fileExists st.fs (conceptOutputPath b c i) = true
  · rw [runStep_skip w b c bp v s q st i hex] at h
    rw [← Except.ok.inj h]
    exact hp
  · have hcases := runStep_nonskip_cases w b c bp v s q st i st'
      (by simpa using hex) h
    rcases hcases with ⟨bts, _, _, hst⟩ | ⟨_, hst⟩ <;> rw [hst, addPacing_fs]
    · exact fileExists_cons_of _ _ _ _ hp
    · exact hp

theorem runStep_ok_incr {w : World} {b : String} {c : Nat} {bp : String} {v : Nat}
    {s q : String} {st : LoopState} {i : Nat} {st' : LoopState}
    (h : runStep w b c bp v s q st i = Except.ok st')
    (hinc : st'.success_count = st.success_count + 1) :
    (fileExists st.fs (conceptOutputPath b c i) = true ∧ st'.fs = st.fs) ∨
    (fileExists st.fs (conceptOutputPath b c i) = false ∧
      ∃ bts, st'.fs = (conceptOutputPath b c i, bts) :: st.fs) := by
  by_cases hex : fileExists st.fs (conceptOutputPath b c i) = true
  · left
    refine ⟨hex, ?_⟩
    rw [runStep_skip w b c bp v s q st i hex] at h
    rw [← Except.ok.inj h]
  · have hcases := runStep_nonskip_cases w b c bp v s q st i st'
      (by simpa using hex) h
    right
    refine ⟨by simpa using hex, ?_⟩
    rcases hcases with ⟨bts, _, _, hst⟩ | ⟨_, hst⟩
    · exact ⟨bts, by rw [hst, addPacing_fs]⟩
    · exfalso
      rw [hst, addPacing_success_count] at hinc
      simp at hinc

theorem runStep_ok_incr_path {w : World} {b : String} {c : Nat} {bp : String} {v : Nat}
    {s q : String} {st : LoopState} {i : Nat} {st' : LoopState}
    (h : runStep w b c bp v s q st i = Except.ok st')
    (hinc : st'.success_count = st.success_count + 1) :
    fileExists st'.fs (conceptOutputPath b c i) = true := by
  rcases runStep_ok_incr h hinc with ⟨hex, hfs⟩ | ⟨_, bts, hfs⟩
  · rw [hfs]; exact hex
  · rw [hfs]; exact fileExists_self _ _ _

/-! Loop-level invariants of the `run_concept` loop, by induction on the
remaining variation indices. -/

theorem except_bind_ok {ε α β : Type} (a : α) (f : α → Except ε β) :
    (Except.ok a >>= f) = f a := rfl

theorem except_bind_error {ε α β : Type} (e : ε) (f : α → Except ε β) :
    ((Except.error e : Except ε α) >>= f) = Except.error e := rfl

theorem runLoop_ok_bounds (w : World) (b : String) (c : Nat) (bp : String) (v : Nat)
    (s q : String) :
    ∀ (is : List Nat) (st st' : LoopState),
      is.foldlM (runStep w b c bp v s q) st = Except.ok st' →
      (st.success_count ≤ st'.success_count ∧
        st'.success_count ≤ st.success_count + is.length ∧
        ∀ p, fileExists st.fs p = true → fileExists st'.fs p = true) := by
  intro is
  induction is with
  | nil =>
    intro st st' h
    have : st = st' := Except.ok.inj h
    subst this
    exact ⟨le_rfl, by simp, fun p hp => hp⟩
  | cons j js ih =>
    intro st st' h
    rw [List.foldlM_cons] at h
    rcases hstep : runStep w b c bp v s q st j with e | st1
    · rw [hstep, except_bind_error] at h; exact absurd h (by simp)
    · rw [hstep, except_bind_ok] at h
      obtain ⟨h1, h2⟩ := runStep_ok_bounds hstep
      obtain ⟨h3, h4, h5⟩ := ih st1 st' h
      exact ⟨by omega, by simp only [List.length_cons]; omega,
        fun p hp => h5 p (runStep_ok_fs_mono hstep p hp)⟩

theorem runLoop_all_succeeded (w : World) (b : String) (c : Nat) (bp : String) (v : Nat)
    (s q : String) :
    ∀ (is : List Nat) (st st' : LoopState),
      is.foldlM (runStep w b c bp v s q) st = Except.ok st' →
      st'.success_count = st.success_count + is.length →
      ∀ i ∈ is, fileExists st'.fs (conceptOutputPath b c i) = true := by
  intro is
  induction is with
  | nil => intro st st' _ _ i hi; cases hi
  | cons j js ih =>
    intro st st' h hcount i hi
    rw [List.foldlM_cons] at h
    rcases hstep : runStep w b c bp v s q st j with e | st1
    · rw [hstep, except_bind_error] at h; exact absurd h (by simp)
    · rw [hstep, except_bind_ok] at h
      obtain ⟨h1, h2⟩ := runStep_ok_bounds hstep
      obtain ⟨h3, h4, h5⟩ := runLoop_ok_bounds w b c bp v s q js st1 st' h
      have hst1 : st1.success_count = st.success_count + 1 := by
        simp only [List.length_cons] at hcount
        omega
      rcases List.mem_cons.mp hi with rfl | hmem
      · exact h5 _ (runStep_ok_incr_path hstep hst1)
      · exact ih st1 st' h (by simp only [List.length_cons] at hcount; omega) i hmem

theorem runLoop_all_skip (w : World) (b : String) (c : Nat) (bp : String) (v : Nat)
    (s q : String) :
    ∀ (is : List Nat) (st : LoopState),
      (∀ i ∈ is, fileExists st.fs (conceptOutputPath b c i) = true) →
      is.foldlM (runStep w b c bp v s q) st =
        Except.ok { st with
          success_count := st.success_count + is.length,
          events := st.events ++ is.map (fun i => Event.log (LogMsg.skipping i)) } := by
  intro is
  induction is with
  | nil =>
    intro st _
    show Except.ok st = _
    simp
  | cons j js ih =>
    intro st hall
    rw [List.foldlM_cons,
      runStep_skip w b c bp v s q st j (hall j (List.mem_cons_self j js)),
      except_bind_ok,
      ih { st with success_count := st.success_count + 1,
                   events := st.events ++ [Event.log (LogMsg.skipping j)] }
        (fun i hi => hall i (List.mem_cons_of_mem j hi))]
    simp only [List.length_cons, List.map_cons, List.append_assoc,
      List.singleton_append, Except.ok.injEq, LoopState.mk.injEq]
    exact ⟨trivial, by omega, trivial⟩

theorem addPacing_mem {e : Event} {t v i : Nat} {st : LoopState}
    (h : e ∈ st.events) : e ∈ (addPacing t v i st).events := by
  unfold addPacing
  split
  · simp only [List.mem_append]; exact Or.inl h
  · exact h

theorem generate_image_no_sleep (decode : String → Bytes) (env : NetEnv)
    (prompt s q : String) :
    ((generate_image decode env prompt s q).2).filter isSleep = [] := by
  obtain ⟨t, hgen, hts⟩ := generate_core_shape MODEL FALLBACK_MODEL decode env prompt s q
  show ((generate_image_core MODEL FALLBACK_MODEL decode env prompt s q).2).filter isSleep = []
  rw [hgen]
  simp [isSleep, hts]

/-- The pacing pause of a non-skipped, non-aborting iteration: exactly one
`time.sleep(1)` at the end when `i < variations`, none when `i` is the
last index. -/
theorem runStep_pacing {w : World} {b : String} {c : Nat} {bp : String} {v : Nat}
    {s q : String} {st : LoopState} {i : Nat} {st' : LoopState}
    (hex : fileExists st.fs (conceptOutputPath b c i) = false)
    (hok : runStep w b c bp v s q st i = Except.ok st') :
    (i < v → st'.events.filter isSleep = st.events.filter isSleep ++ [Event.sleep 10] ∧
      st'.events.getLast? = some (Event.sleep 10)) ∧
    (¬ i < v → st'.events.filter isSleep = st.events.filter isSleep) := by
  have hfilter := generate_image_no_sleep w.decode (w.net i) (variationPrompt bp i) s q
  rcases runStep_nonskip_cases w b c bp v s q st i st' hex hok with
    ⟨bts, _, _, hst⟩ | ⟨_, hst⟩ <;> subst hst <;> constructor
  · intro hlt
    rw [addPacing_events_lt _ _ _ _ hlt]
    exact ⟨by simp [List.filter_append, hfilter, isSleep], List.getLast?_concat _⟩
  · intro hge
    rw [addPacing_events_ge _ _ _ _ hge]
    simp [List.filter_append, hfilter, isSleep]
  · intro hlt
    rw [addPacing_events_lt _ _ _ _ hlt]
    exact ⟨by simp [List.filter_append, hfilter, isSleep], List.getLast?_concat _⟩
  · intro hge
    rw [addPacing_events_ge _ _ _ _ hge]
    simp [List.filter_append, hfilter, isSleep]

/-- A non-skipped, non-aborting iteration records the POST of the primary
payload built from the variation prompt. -/
theorem runStep_prompt_mem {w : World} {b : String} {c : Nat} {bp : String} {v : Nat}
    {s q : String} {st : LoopState} {i : Nat} {st' : LoopState}
    (hex : fileExists st.fs (conceptOutputPath b c i) = false)
    (hok : runStep w b c bp v s q st i = Except.ok st') :
    Event.post (basePayload MODEL (variationPrompt bp i) s q) ∈ st'.events := by
  obtain ⟨t, hgen, _⟩ :=
    generate_core_shape MODEL FALLBACK_MODEL w.decode (w.net i) (variationPrompt bp i) s q
  have hgen' : (generate_image w.decode (w.net i) (variationPrompt bp i) s q).2 =
      Event.post (basePayload MODEL (variationPrompt bp i) s q) :: t := hgen
  rcases runStep_nonskip_cases w b c bp v s q st i st' hex hok with
    ⟨bts, _, _, hst⟩ | ⟨_, hst⟩ <;> subst hst <;> apply addPacing_mem <;>
    simp [hgen']

/-! Run-level pacing facts: every pause is the fixed one-second pause and
no pause ever precedes the first network call. -/

theorem sleepsTen_append {l1 l2 : List Event}
    (h1 : ∀ e ∈ l1, isSleep e = true → e = Event.sleep 10)
    (h2 : ∀ e ∈ l2, isSleep e = true → e = Event.sleep 10) :
    ∀ e ∈ l1 ++ l2, isSleep e = true → e = Event.sleep 10 := by
  intro e he hs
  rcases List.mem_append.mp he with h | h
  · exact h1 e h hs
  · exact h2 e h hs

theorem obsHead_extend {l1 l2 : List Event}
    (h1 : ∀ t, (l1.filter isObs).head? ≠ some (Event.sleep t))
    (h2 : ∀ t, (l2.filter isObs).head? ≠ some (Event.sleep t)) :
    ∀ t, (((l1 ++ l2).filter isObs).head?) ≠ some (Event.sleep t) := by
  intro t
  rw [List.filter_append, List.head?_append]
  rcases hh : (l1.filter isObs).head? with _ | e
  · simpa [Option.or] using h2 t
  · intro hcon
    simp only [Option.or] at hcon
    exact h1 t (hh.trans hcon)

theorem sleepsTen_of_filter {l l0 : List Event}
    (hf : l.filter isSleep = l0.filter isSleep ∨
      l.filter isSleep = l0.filter isSleep ++ [Event.sleep 10])
    (h0 : ∀ e ∈ l0, isSleep e = true → e = Event.sleep 10) :
    ∀ e ∈ l, isSleep e = true → e = Event.sleep 10 := by
  intro e he hs
  have hmem : e ∈ l.filter isSleep := List.mem_filter.mpr ⟨he, hs⟩
  rcases hf with hf | hf <;> rw [hf] at hmem
  · obtain ⟨h1, h2⟩ := List.mem_filter.mp hmem
    exact h0 e h1 h2
  · rcases List.mem_append.mp hmem with h | h
    · obtain ⟨h1, h2⟩ := List.mem_filter.mp h
      exact h0 e h1 h2
    · simpa using h

theorem runStep_preserves_pacing {w : World} {b : String} {c : Nat} {bp : String}
    {v : Nat} {s q : String} {st : LoopState} {i : Nat} {st' : LoopState}
    (hok : runStep w b c bp v s q st i = Except.ok st')
    (hsl : ∀ e ∈ st.events, isSleep e = true → e = Event.sleep 10)
    (hob : ∀ t, ((st.events.filter isObs).head?) ≠ some (Event.sleep t)) :
    (∀ e ∈ st'.events, isSleep e = true → e = Event.sleep 10) ∧
    (∀ t, ((st'.events.filter isObs).head?) ≠ some (Event.sleep t)) := by
  by_cases hex : fileExists st.fs (conceptOutputPath b c i) = true
  · rw [runStep_skip w b c bp v s q st i hex] at hok
    rw [← Except.ok.inj hok]
    constructor
    · intro e he hs
      rcases List.mem_append.mp he with h | h
      · exact hsl e h hs
      · simp only [List.mem_singleton] at h
        subst h
        simp [isSleep] at hs
    · exact obsHead_extend hob (by intro tt; simp [isObs, isNetCall, isSleep])
  · have hsl' : ∀ e ∈ st'.events, isSleep e = true → e = Event.sleep 10 := by
      have hp := runStep_pacing (by simpa using hex) hok
      by_cases hlt : i < v
      · exact sleepsTen_of_filter (Or.inr (hp.1 hlt).1) hsl
      · exact sleepsTen_of_filter (Or.inl (hp.2 hlt)) hsl
    refine ⟨hsl', ?_⟩
    obtain ⟨t, hgen, hts⟩ :=
      generate_core_shape MODEL FALLBACK_MODEL w.decode (w.net i) (variationPrompt bp i) s q
    have hgen' : (generate_image w.decode (w.net i) (variationPrompt bp i) s q).2 =
        Event.post (basePayload MODEL (variationPrompt bp i) s q) :: t := hgen
    rcases runStep_nonskip_cases w b c bp v s q st i st'
        (by simpa using hex) hok with ⟨bts, _, _, hst⟩ | ⟨_, hst⟩ <;> subst hst <;>
      unfold addPacing <;> split <;> rw [hgen'] <;>
      simp only [List.append_assoc, List.cons_append, List.singleton_append,
        List.nil_append] <;>
      exact obsHead_extend hob (by intro tt; simp [isObs, isNetCall, isSleep])

theorem runLoop_pacing (w : World) (b : String) (c : Nat) (bp : String) (v : Nat)
    (s q : String) :
    ∀ (is : List Nat) (st st' : LoopState),
      is.foldlM (runStep w b c bp v s q) st = Except.ok st' →
      (∀ e ∈ st.events, isSleep e = true → e = Event.sleep 10) →
      (∀ t, ((st.events.filter isObs).head?) ≠ some (Event.sleep t)) →
      (∀ e ∈ st'.events, isSleep e = true → e = Event.sleep 10) ∧
      (∀ t, ((st'.events.filter isObs).head?) ≠ some (Event.sleep t)) := by
  intro is
  induction is with
  | nil =>
    intro st st' h hsl hob
    have : st = st' := Except.ok.inj h
    subst this
    exact ⟨hsl, hob⟩
  | cons j js ih =>
    intro st st' h hsl hob
    rw [List.foldlM_cons] at h
    rcases hstep : runStep w b c bp v s q st j with e | st1
    · rw [hstep, except_bind_error] at h; exact absurd h (by simp)
    · rw [hstep, except_bind_ok] at h
      obtain ⟨hsl1, hob1⟩ := runStep_preserves_pacing hstep hsl hob
      exact ih st1 st' h hsl1 hob1

/-! The same iteration facts for the `generate_round3.py` main loop. -/

theorem round3Step_skip (w : World) (b : String) (promptOf : String → String)
    (total : Nat) (st : LoopState) (i : Nat) (key : String)
    (h : fileExists st.fs (round3OutputPath b key) = true) :
    round3Step w b promptOf total st (i, key) =
      Except.ok { st with success_count := st.success_count + 1,
                          events := st.events ++ [Event.log (LogMsg.skipping i)] } := by
  simp [round3Step, h]

theorem round3Step_nonskip_cases (w : World) (b : String) (promptOf : String → String)
    (total : Nat) (st : LoopState) (i : Nat) (key : String) (st' : LoopState)
    (h : fileExists st.fs (round3OutputPath b key) = false)
    (hok : round3Step w b promptOf total st (i, key) = Except.ok st') :
    (∃ bts, (generate_image w.decode (w.net i) (promptOf key) "1024x1024" "high").1 =
        Except.ok (some bts) ∧ w.valid bts = true ∧
      st' = addPacing 15 total i
        { st with fs := (round3OutputPath b key, bts) :: st.fs,
                  success_count := st.success_count + 1,
                  events := st.events ++ [Event.log (LogMsg.generating i)] ++
                    (generate_image w.decode (w.net i) (promptOf key) "1024x1024" "high").2 }) ∨
    ((generate_image w.decode (w.net i) (promptOf key) "1024x1024" "high").1 =
        Except.ok none ∧
      st' = addPacing 15 total i
        { st with events := st.events ++ [Event.log (LogMsg.generating i)] ++
            (generate_image w.decode (w.net i) (promptOf key) "1024x1024" "high").2 ++
            [Event.log (LogMsg.failedVariation i)] }) := by
  rw [round3Step] at hok
  simp only at hok
  rw [h] at hok
  simp only [Bool.false_eq_true, if_false] at hok
  rcases hr : (generate_image w.decode (w.net i) (promptOf key) "1024x1024" "high").1
    with e | ob
  · rw [hr] at hok; exact absurd hok (by simp)
  · rw [hr] at hok
    rcases ob with _ | bts
    · right
      refine ⟨rfl, ?_⟩
      simpa using hok.symm
    · left
      rcases hv : w.valid bts with _ | _
      · exfalso
        simp only [round3_persist, hv, Bool.false_eq_true, if_false] at hok
        exact absurd hok (by simp)
      · refine ⟨bts, rfl, hv, ?_⟩
        simp only [round3_persist, hv, if_true] at hok
        simpa using hok.symm

theorem round3Step_ok_bounds {w : World} {b : String} {promptOf : String → String}
    {total : Nat} {st : LoopState} {ik : Nat × String} {st' : LoopState}
    (h : round3Step w b promptOf total st ik = Except.ok st') :
    st.success_count ≤ st'.success_count ∧
      st'.success_count ≤ st.success_count + 1 := by
  obtain ⟨i, key⟩ := ik
  by_cases hex : fileExists st.fs (round3OutputPath b key) = true
  · rw [round3Step_skip w b promptOf total st i key hex] at h
    rw [← Except.ok.inj h]
    constructor <;> simp
  · have hcases := round3Step_nonskip_cases w b promptOf total st i key st'
      (by simpa using hex) h
    rcases hcases with ⟨bts, _, _, hst⟩ | ⟨_, hst⟩ <;>
      rw [hst, addPacing_success_count] <;> constructor <;> simp

theorem round3Loop_ok_bounds (w : World) (b : String) (promptOf : String → String)
    (total : Nat) :
    ∀ (iks : List (Nat × String)) (st st' : LoopState),
      iks.foldlM (round3Step w b promptOf total) st = Except.ok st' →
      st.success_count ≤ st'.success_count ∧
        st'.success_count ≤ st.success_count + iks.length := by
  intro iks
  induction iks with
  | nil =>
    intro st st' h
    have : st = st' := Except.ok.inj h
    subst this
    exact ⟨le_rfl, by simp⟩
  | cons j js ih =>
    intro st st' h
    rw [List.foldlM_cons] at h
    rcases hstep : round3Step w b promptOf total st j with e | st1
    · rw [hstep, except_bind_error] at h; exact absurd h (by simp)
    · rw [hstep, except_bind_ok] at h
      obtain ⟨h1, h2⟩ := round3Step_ok_bounds hstep
      obtain ⟨h3, h4⟩ := ih st1 st' h
      exact ⟨by omega, by simp only [List.length_cons]; omega⟩

/-! Fallback behaviour of the requestor. -/

theorem generate_core_fallback_posts (model fb : String) (decode : String → Bytes)
    (env : NetEnv) (prompt size quality : String) (stat : Nat) (txt : String)
    (hp : env.primary = PostOutcome.httpError stat txt) (hne : model ≠ fb) :
    ((generate_image_core model fb decode env prompt size quality).2).filter isPost =
      [Event.post (basePayload model prompt size quality),
       Event.post (fallbackPayload fb prompt size quality)] := by
  obtain ⟨prim, fb2, dl⟩ := env
  simp only at hp
  subst hp
  rcases fb2 with body | ⟨stat2, txt2⟩ | _
  · obtain ⟨t, ht, htp, _⟩ := extractResult_shape decode
      ⟨PostOutcome.httpError stat txt, PostOutcome.success body, dl⟩ body
      [Event.post (basePayload model prompt size quality),
       Event.log (LogMsg.apiError stat (txt.take 300)),
       Event.log LogMsg.tryingFallback,
       Event.post (fallbackPayload fb prompt size quality)]
    have hred : (generate_image_core model fb decode
        ⟨PostOutcome.httpError stat txt, PostOutcome.success body, dl⟩
        prompt size quality).2 =
        (extractResult decode
          ⟨PostOutcome.httpError stat txt, PostOutcome.success body, dl⟩ body
          [Event.post (basePayload model prompt size quality),
           Event.log (LogMsg.apiError stat (txt.take 300)),
           Event.log LogMsg.tryingFallback,
           Event.post (fallbackPayload fb prompt size quality)]).2 := by
      simp [generate_image_core, hne, basePayload, fallbackPayload]
    rw [hred, ht]
    simp [List.filter_append, htp, isPost]
  · simp [generate_image_core, hne, basePayload, fallbackPayload, isPost]
  · simp [generate_image_core, hne, basePayload, fallbackPayload, isPost]

theorem generate_core_same_model (model : String) (decode : String → Bytes)
    (env : NetEnv) (prompt size quality : String) (stat : Nat) (txt : String)
    (hp : env.primary = PostOutcome.httpError stat txt) :
    (generate_image_core model model decode env prompt size quality).1 =
        Except.ok none ∧
      ((generate_image_core model model decode env prompt size quality).2).filter isPost =
        [Event.post (basePayload model prompt size quality)] := by
  obtain ⟨prim, fb2, dl⟩ := env
  simp only at hp
  subst hp
  constructor <;> simp [generate_image_core, basePayload, isPost]

theorem generate_core_fallback_failed (model fb : String) (decode : String → Bytes)
    (env : NetEnv) (prompt size quality : String) (stat stat2 : Nat) (txt txt2 : String)
    (hp : env.primary = PostOutcome.httpError stat txt)
    (hf : env.fallback = PostOutcome.httpError stat2 txt2) (hne : model ≠ fb) :
    (generate_image_core model fb decode env prompt size quality).1 = Except.ok none ∧
      (generate_image_core model fb decode env prompt size quality).2 =
        [Event.post (basePayload model prompt size quality),
         Event.log (LogMsg.apiError stat (txt.take 300)),
         Event.log LogMsg.tryingFallback,
         Event.post (fallbackPayload fb prompt size quality),
         Event.log (LogMsg.fallbackFailed stat2 (txt2.take 300))] := by
  obtain ⟨prim, fb2, dl⟩ := env
  simp only at hp hf
  subst hp
  subst hf
  constructor <;> simp [generate_image_core, hne, basePayload, fallbackPayload]

/-! Per-image failure versus batch abort, at the level of one iteration. -/

/-- When `generate_image` returns `None` (a caught, logged per-image
failure), the iteration completes normally: the failure is logged, the
success counter is untouched, and the loop goes on. -/
theorem runStep_genfail {w : World} {b : String} {c : Nat} {bp : String} {v : Nat}
    {s q : String} {st : LoopState} {i : Nat}
    (hex : fileExists st.fs (conceptOutputPath b c i) = false)
    (hgen : (generate_image w.decode (w.net i) (variationPrompt bp i) s q).1 =
      Except.ok none) :
    runStep w b c bp v s q st i = Except.ok (addPacing 10 v i
      { st with events := st.events ++ [Event.log (LogMsg.generating i)] ++
          (generate_image w.decode (w.net i) (variationPrompt bp i) s q).2 ++
          [Event.log (LogMsg.failedVariation i)] }) := by
  rw [runStep, hex]
  simp only [Bool.false_eq_true, if_false]
  rw [hgen]

/-- When `generate_image` succeeds but the bytes do not decode as an
image, `save_image` raises and the iteration aborts the whole run. -/
theorem runStep_decode_error {w : World} {b : String} {c : Nat} {bp : String} {v : Nat}
    {s q : String} {st : LoopState} {i : Nat} {bts : Bytes}
    (hex : fileExists st.fs (conceptOutputPath b c i) = false)
    (hgen : (generate_image w.decode (w.net i) (variationPrompt bp i) s q).1 =
      Except.ok (some bts))
    (hval : w.valid bts = false) :
    runStep w b c bp v s q st i = Except.error Exc.decodeError := by
  rw [runStep, hex]
  simp only [Bool.false_eq_true, if_false]
  rw [hgen]
  simp [save_image, hval]

/-- Any uncaught exception raised inside `generate_image` propagates out
of the iteration unchanged. -/
theorem runStep_gen_error {w : World} {b : String} {c : Nat} {bp : String} {v : Nat}
    {s q : String} {st : LoopState} {i : Nat} {e : Exc}
    (hex : fileExists st.fs (conceptOutputPath b c i) = false)
    (hgen : (generate_image w.decode (w.net i) (variationPrompt bp i) s q).1 =
      Except.error e) :
    runStep w b c bp v s q st i = Except.error e := by
  rw [runStep, hex]
  simp only [Bool.false_eq_true, if_false]
  rw [hgen]

/-- A primary 2xx whose first `data` item has neither payload field is the
caught `UnexpectedResponseShape` case: `None` plus the log line. -/
theorem generate_unexpected (decode : String → Bytes) (env : NetEnv)
    (p s q : String) (body : RespBody) (rest : List RespItem)
    (hp : env.primary = PostOutcome.success body)
    (hbody : body.data = some (⟨none, none⟩ :: rest)) :
    (generate_image decode env p s q).1 = Except.ok none ∧
    Event.log LogMsg.unexpectedFormat ∈ (generate_image decode env p s q).2 := by
  obtain ⟨prim, fb2, dl⟩ := env
  simp only at hp
  subst hp
  constructor <;> simp [generate_image, generate_image_core, extractResult, hbody]

/-- The full behaviour of the shared response-extraction tail on a body
with a first item. -/
theorem extractResult_spec (decode : String → Bytes) (env : NetEnv) (body : RespBody)
    (item : RespItem) (rest : List RespItem) (evs : List Event)
    (hbody : body.data = some (item :: rest)) :
    (∀ sVal, item.b64_json = some sVal →
      (extractResult decode env body evs).1 = Except.ok (some (decode sVal)) ∧
      (extractResult decode env body evs).2 = evs) ∧
    (∀ u, item.b64_json = none → item.url = some u →
      (extractResult decode env body evs).2 = evs ++ [Event.get u] ∧
      (∀ ct, env.download = GetOutcome.success ct →
        (extractResult decode env body evs).1 = Except.ok (some ct))) ∧
    (item.b64_json = none → item.url = none →
      (extractResult decode env body evs).1 = Except.ok none ∧
      (extractResult decode env body evs).2 =
        evs ++ [Event.log LogMsg.unexpectedFormat]) := by
  obtain ⟨b64, url⟩ := item
  refine ⟨?_, ?_, ?_⟩
  · intro sVal hb
    simp only at hb
    subst hb
    constructor <;> simp [extractResult, hbody]
  · intro u hb hu
    simp only at hb hu
    subst hb
    subst hu
    obtain ⟨prim, fb2, dl⟩ := env
    constructor
    · rcases dl with ct | ⟨s2, t2⟩ | _ <;> simp [extractResult, hbody]
    · intro ct hdl
      simp only at hdl
      subst hdl
      simp [extractResult, hbody]
  · intro hb hu
    simp only at hb hu
    subst hb
    subst hu
    constructor <;> simp [extractResult, hbody]

/-- Pacing of a non-skipped, non-aborting round-3 iteration: one
`time.sleep(1.5)` at the end when `i < total`, none otherwise. -/
theorem round3Step_pacing {w : World} {b : String} {promptOf : String → String}
    {total : Nat} {st : LoopState} {i : Nat} {key : String} {st' : LoopState}
    (hex : fileExists st.fs (round3OutputPath b key) = false)
    (hok : round3Step w b promptOf total st (i, key) = Except.ok st') :
    (i < total → st'.events.filter isSleep = st.events.filter isSleep ++ [Event.sleep 15] ∧
      st'.events.getLast? = some (Event.sleep 15)) ∧
    (¬ i < total → st'.events.filter isSleep = st.events.filter isSleep) := by
  have hfilter := generate_image_no_sleep w.decode (w.net i) (promptOf key) "1024x1024" "high"
  rcases round3Step_nonskip_cases w b promptOf total st i key st' hex hok with
    ⟨bts, _, _, hst⟩ | ⟨_, hst⟩ <;> subst hst <;> constructor
  · intro hlt
    rw [addPacing_events_lt _ _ _ _ hlt]
    exact ⟨by simp [List.filter_append, hfilter, isSleep], List.getLast?_concat _⟩
  · intro hge
    rw [addPacing_events_ge _ _ _ _ hge]
    simp [List.filter_append, hfilter, isSleep]
  · intro hlt
    rw [addPacing_events_lt _ _ _ _ hlt]
    exact ⟨by simp [List.filter_append, hfilter, isSleep], List.getLast?_concat _⟩
  · intro hge
    rw [addPacing_events_ge _ _ _ _ hge]
    simp [List.filter_append, hfilter, isSleep]

/-! The claims. -/

/-- C3: for every concept and every variation index `i ≥ 1` that triggers
generation, `i = 1` sends the base concept prompt exactly, `i ≥ 2` appends
the rotating hint at index `(i - 2) % 5`, and `i = 7` wraps around to the
hint used at `i = 2`; the POST actually issued by a non-skipped iteration
carries exactly this prompt. -/
theorem variation_hint_schedule :
    (∀ basePrompt : String, variationPrompt basePrompt 1 = basePrompt) ∧
    (∀ (basePrompt : String) (i : Nat), 2 ≤ i →
      variationPrompt basePrompt i =
        basePrompt ++ variation_hints.getD ((i - 2) % 5) "") ∧
    (∀ basePrompt : String,
      variationPrompt basePrompt 7 = variationPrompt basePrompt 2) ∧
    (∀ (w : World) (baseDir : String) (cid : Nat) (basePrompt : String)
        (variations : Nat) (size quality : String) (st : LoopState) (i : Nat)
        (st' : LoopState),
      fileExists st.fs (conceptOutputPath baseDir cid i) = false →
      runStep w baseDir cid basePrompt variations size quality st i = Except.ok st' →
      Event.post (basePayload MODEL (variationPrompt basePrompt i) size quality) ∈
        st'.events) := by
  refine ⟨?_, ?_, ?_, ?_⟩
  · intro bp
    simp [variationPrompt]
  · intro bp i hi
    have h1 : 1 < i := hi
    simp [variationPrompt, h1, variation_hints]
  · intro bp
    simp [variationPrompt, variation_hints]
  · intro w baseDir cid bp v size quality st i st' hex hok
    exact runStep_prompt_mem hex hok

/-- Witness for C3 at a concrete non-skipped iteration. -/
theorem variation_hint_schedule_witness :
    Event.post (basePayload MODEL (variationPrompt "P" 2) "1024x1024" "high") ∈
      [Event.log (LogMsg.generating 2),
       Event.post (basePayload MODEL (variationPrompt "P" 2) "1024x1024" "high"),
       Event.sleep 10] :=
  variation_hint_schedule.2.2.2 wOK "" 1 "P" 3 "1024x1024" "high"
    { fs := [], success_count := 0, events := [] } 2
    { fs := [(conceptOutputPath "" 1 2, [7])], success_count := 1,
      events := [Event.log (LogMsg.generating 2),
                 Event.post (basePayload MODEL (variationPrompt "P" 2) "1024x1024" "high"),
                 Event.sleep 10] }
    rfl rfl

/-- C4: a variation whose computed path already exists is counted as
succeeded with no network call, in both workflows; in particular running
3 variations with `v01.png` present makes exactly the 2 POSTs for `v02`
and `v03` and reports 3/3. -/
theorem skip_existing_counts_success :
    (∀ (w : World) (baseDir : String) (cid : Nat) (basePrompt : String)
        (variations : Nat) (size quality : String) (st : LoopState) (i : Nat),
      fileExists st.fs (conceptOutputPath baseDir cid i) = true →
      runStep w baseDir cid basePrompt variations size quality st i =
        Except.ok { st with success_count := st.success_count + 1,
                            events := st.events ++ [Event.log (LogMsg.skipping i)] }) ∧
    (∀ (w : World) (baseDir : String) (promptOf : String → String) (total : Nat)
        (st : LoopState) (i : Nat) (key : String),
      fileExists st.fs (round3OutputPath baseDir key) = true →
      round3Step w baseDir promptOf total st (i, key) =
        Except.ok { st with success_count := st.success_count + 1,
                            events := st.events ++ [Event.log (LogMsg.skipping i)] }) ∧
    (runConcept wOK "" 1 "P" 3 "1024x1024" "high" [(conceptOutputPath "" 1 1, [0])] =
      Except.ok
        { fs := [(conceptOutputPath "" 1 3, [7]), (conceptOutputPath "" 1 2, [7]),
                 (conceptOutputPath "" 1 1, [0])],
          success_count := 3,
          events := [Event.log (LogMsg.skipping 1),
                     Event.log (LogMsg.generating 2),
                     Event.post (basePayload MODEL (variationPrompt "P" 2)
                       "1024x1024" "high"),
                     Event.sleep 10,
                     Event.log (LogMsg.generating 3),
                     Event.post (basePayload MODEL (variationPrompt "P" 3)
                       "1024x1024" "high")] }) ∧
    ((runEvents (runConcept wOK "" 1 "P" 3 "1024x1024" "high"
        [(conceptOutputPath "" 1 1, [0])])).filter isNetCall).length = 2 := by
  refine ⟨?_, ?_, rfl, rfl⟩
  · intro w baseDir cid bp v size quality st i hex
    exact runStep_skip w baseDir cid bp v size quality st i hex
  · intro w baseDir promptOf total st i key hex
    exact round3Step_skip w baseDir promptOf total st i key hex

/-- Witness for C4's universally quantified skip conjunct. -/
theorem skip_existing_counts_success_witness :
    runStep wOK "" 1 "P" 3 "1024x1024" "high"
      { fs := [(conceptOutputPath "" 1 1, [0])], success_count := 0, events := [] } 1 =
      Except.ok { fs := [(conceptOutputPath "" 1 1, [0])], success_count := 1,
                  events := [Event.log (LogMsg.skipping 1)] } :=
  skip_existing_counts_success.1 wOK "" 1 "P" 3 "1024x1024" "high"
    { fs := [(conceptOutputPath "" 1 1, [0])], success_count := 0, events := [] } 1 rfl

/-- C6: the computed output path is a deterministic function of the
key/index pair with the documented shape, and distinct pairs never
collide (within each workflow, for the concept ids 1-4 that exist). -/
theorem output_path_deterministic :
    (∀ (baseDir : String) (cid i : Nat),
      conceptOutputPath baseDir cid i =
        baseDir ++ "/" ++ CONCEPT_DIRS cid ++ "/" ++ ("v" ++ pad2 i ++ ".png")) ∧
    (∀ (baseDir key : String),
      round3OutputPath baseDir key = baseDir ++ "/concepts/round3/" ++ key ++ ".png") ∧
    (∀ (baseDir : String) (c c' i i' : Nat), 1 ≤ c → c ≤ 4 → 1 ≤ c' → c' ≤ 4 →
      (c, i) ≠ (c', i') →
      conceptOutputPath baseDir c i ≠ conceptOutputPath baseDir c' i') ∧
    (∀ (baseDir k k' : String), k ≠ k' →
      round3OutputPath baseDir k ≠ round3OutputPath baseDir k') := by
  refine ⟨fun _ _ _ => rfl, fun _ _ => rfl, ?_, ?_⟩
  · intro baseDir c c' i i' hc1 hc2 hc1' hc2' hne heq
    obtain ⟨hc, hi⟩ := conceptOutputPath_inj hc1 hc2 hc1' hc2' heq
    exact hne (by rw [hc, hi])
  · intro baseDir k k' hne heq
    exact hne (round3OutputPath_inj heq)

/-- Witness for C6's no-collision conjuncts. -/
theorem output_path_deterministic_witness :
    conceptOutputPath "." 1 1 ≠ conceptOutputPath "." 2 1 :=
  output_path_deterministic.2.2.1 "." 1 2 1 1 (by decide) (by decide) (by decide)
    (by decide) (by decide)

/-- C10: the persist step writes the bytes to the computed path before the
image-decodability check, in both scripts, so on a decode failure the
invalid file is already on disk and stays there. -/
theorem persist_before_validate :
    (∀ (valid : Bytes → Bool) (image_bytes : Bytes) (output_path : String) (fs : FS),
      (save_image valid image_bytes output_path fs).2 =
        (output_path, image_bytes) :: fs ∧
      (round3_persist valid image_bytes output_path fs).2 =
        (output_path, image_bytes) :: fs ∧
      lookupFS (save_image valid image_bytes output_path fs).2 output_path =
        some image_bytes) ∧
    (∀ (valid : Bytes → Bool) (image_bytes : Bytes) (output_path : String) (fs : FS),
      valid image_bytes = false →
      (save_image valid image_bytes output_path fs).1 = Except.error Exc.decodeError ∧
      (round3_persist valid image_bytes output_path fs).1 =
        Except.error Exc.decodeError ∧
      lookupFS (save_image valid image_bytes output_path fs).2 output_path =
        some image_bytes) := by
  constructor
  · intro valid image_bytes output_path fs
    have h2 : (save_image valid image_bytes output_path fs).2 =
        (output_path, image_bytes) :: fs := by
      simp only [save_image]
      split <;> rfl
    have h3 : (round3_persist valid image_bytes output_path fs).2 =
        (output_path, image_bytes) :: fs := by
      simp only [round3_persist]
      split <;> rfl
    refine ⟨h2, h3, ?_⟩
    rw [h2]
    simp [lookupFS]
  · intro valid image_bytes output_path fs hv
    refine ⟨?_, ?_, ?_⟩ <;> simp [save_image, round3_persist, lookupFS, hv]

/-- Witness for C10's decode-failure conjunct. -/
theorem persist_before_validate_witness :
    (save_image (fun _ => false) [1] "p" []).1 = Except.error Exc.decodeError ∧
    (round3_persist (fun _ => false) [1] "p" []).1 = Except.error Exc.decodeError ∧
    lookupFS (save_image (fun _ => false) [1] "p" []).2 "p" = some [1] :=
  persist_before_validate.2 (fun _ => false) [1] "p" [] rfl

/-- C2: on a primary non-2xx the requestor issues exactly one fallback
POST re-using the same prompt with the fallback model, `response_format`
set to `b64_json` and no `output_format` field; the fallback fires only
when the two model names differ; and when the fallback also fails there
is no further retry and the outcome is the per-image failure logged with
the fallback's HTTP status and the error body truncated to 300
characters. -/
theorem fallback_behavior :
    (∀ (decode : String → Bytes) (env : NetEnv) (prompt size quality : String)
        (stat : Nat) (txt : String),
      env.primary = PostOutcome.httpError stat txt →
      ((generate_image decode env prompt size quality).2).filter isPost =
        [Event.post (basePayload MODEL prompt size quality),
         Event.post (fallbackPayload FALLBACK_MODEL prompt size quality)]) ∧
    (∀ (model : String) (decode : String → Bytes) (env : NetEnv)
        (prompt size quality : String) (stat : Nat) (txt : String),
      env.primary = PostOutcome.httpError stat txt →
      (generate_image_core model model decode env prompt size quality).1 =
          Except.ok none ∧
        ((generate_image_core model model decode env prompt size quality).2).filter
            isPost =
          [Event.post (basePayload model prompt size quality)]) ∧
    (∀ (decode : String → Bytes) (env : NetEnv) (prompt size quality : String)
        (stat stat2 : Nat) (txt txt2 : String),
      env.primary = PostOutcome.httpError stat txt →
      env.fallback = PostOutcome.httpError stat2 txt2 →
      (generate_image decode env prompt size quality).1 = Except.ok none ∧
        (generate_image decode env prompt size quality).2 =
          [Event.post (basePayload MODEL prompt size quality),
           Event.log (LogMsg.apiError stat (txt.take 300)),
           Event.log LogMsg.tryingFallback,
           Event.post (fallbackPayload FALLBACK_MODEL prompt size quality),
           Event.log (LogMsg.fallbackFailed stat2 (txt2.take 300))]) := by
  have hne : MODEL ≠ FALLBACK_MODEL := by decide
  refine ⟨?_, ?_, ?_⟩
  · intro decode env prompt size quality stat txt hp
    exact generate_core_fallback_posts MODEL FALLBACK_MODEL decode env
      prompt size quality stat txt hp hne
  · intro model decode env prompt size quality stat txt hp
    exact generate_core_same_model model decode env prompt size quality stat txt hp
  · intro decode env prompt size quality stat stat2 txt txt2 hp hf
    exact generate_core_fallback_failed MODEL FALLBACK_MODEL decode env
      prompt size quality stat stat2 txt txt2 hp hf hne

/-- Witness for C2 at a concrete double-failure environment. -/
theorem fallback_behavior_witness :
    (generate_image (fun _ => ([] : Bytes))
        { primary := PostOutcome.httpError 500 "boom",
          fallback := PostOutcome.httpError 503 "fallback boom",
          download := GetOutcome.success [9] } "p" "1024x1024" "high").1 =
        Except.ok none ∧
    (generate_image (fun _ => ([] : Bytes))
        { primary := PostOutcome.httpError 500 "boom",
          fallback := PostOutcome.httpError 503 "fallback boom",
          download := GetOutcome.success [9] } "p" "1024x1024" "high").2 =
      [Event.post (basePayload MODEL "p" "1024x1024" "high"),
       Event.log (LogMsg.apiError 500 ("boom".take 300)),
       Event.log LogMsg.tryingFallback,
       Event.post (fallbackPayload FALLBACK_MODEL "p" "1024x1024" "high"),
       Event.log (LogMsg.fallbackFailed 503 ("fallback boom".take 300))] :=
  fallback_behavior.2.2 (fun _ => ([] : Bytes))
    { primary := PostOutcome.httpError 500 "boom",
      fallback := PostOutcome.httpError 503 "fallback boom",
      download := GetOutcome.success [9] } "p" "1024x1024" "high" 500 503
    "boom" "fallback boom" rfl rfl

/-- C8: on a successful HTTP response from either model, the requestor
uses the first item of the `data` array: an inline base64 payload is
decoded directly with no extra network call, a `url` field is fetched
with exactly one additional GET, and when neither field is present the
result is the logged `UnexpectedResponseShape` per-image failure. -/
theorem response_extraction :
    ∀ (decode : String → Bytes) (env : NetEnv) (p s q : String) (body : RespBody)
      (item : RespItem) (rest : List RespItem),
      body.data = some (item :: rest) →
      (env.primary = PostOutcome.success body →
        (∀ sVal, item.b64_json = some sVal →
          (generate_image decode env p s q).1 = Except.ok (some (decode sVal)) ∧
          ((generate_image decode env p s q).2).filter isGet = []) ∧
        (∀ u, item.b64_json = none → item.url = some u →
          ((generate_image decode env p s q).2).filter isGet = [Event.get u] ∧
          (∀ ct, env.download = GetOutcome.success ct →
            (generate_image decode env p s q).1 = Except.ok (some ct))) ∧
        (item.b64_json = none → item.url = none →
          (generate_image decode env p s q).1 = Except.ok none ∧
          Event.log LogMsg.unexpectedFormat ∈ (generate_image decode env p s q).2)) ∧
      (∀ (stat : Nat) (txt : String),
        env.primary = PostOutcome.httpError stat txt →
        env.fallback = PostOutcome.success body →
        (∀ sVal, item.b64_json = some sVal →
          (generate_image decode env p s q).1 = Except.ok (some (decode sVal)) ∧
          ((generate_image decode env p s q).2).filter isGet = []) ∧
        (∀ u, item.b64_json = none → item.url = some u →
          ((generate_image decode env p s q).2).filter isGet = [Event.get u] ∧
          (∀ ct, env.download = GetOutcome.success ct →
            (generate_image decode env p s q).1 = Except.ok (some ct))) ∧
        (item.b64_json = none → item.url = none →
          (generate_image decode env p s q).1 = Except.ok none ∧
          Event.log LogMsg.unexpectedFormat ∈ (generate_image decode env p s q).2)) := by
  have hne : MODEL ≠ FALLBACK_MODEL := by decide
  intro decode env p s q body item rest hbody
  obtain ⟨prim, fb2, dl⟩ := env
  constructor
  · intro hp
    simp only at hp
    subst hp
    have hred : generate_image decode ⟨PostOutcome.success body, fb2, dl⟩ p s q =
        extractResult decode ⟨PostOutcome.success body, fb2, dl⟩ body
          [Event.post (basePayload MODEL p s q)] := rfl
    obtain ⟨e1, e2, e3⟩ := extractResult_spec decode ⟨PostOutcome.success body, fb2, dl⟩
      body item rest [Event.post (basePayload MODEL p s q)] hbody
    refine ⟨?_, ?_, ?_⟩
    · intro sVal hb
      obtain ⟨r1, r2⟩ := e1 sVal hb
      rw [hred, r1, r2]
      exact ⟨rfl, by simp [isGet]⟩
    · intro u hb hu
      obtain ⟨r2, r1⟩ := e2 u hb hu
      refine ⟨by rw [hred, r2]; simp [isGet], ?_⟩
      intro ct hdl
      rw [hred, r1 ct hdl]
    · intro hb hu
      obtain ⟨r1, r2⟩ := e3 hb hu
      rw [hred, r1, r2]
      exact ⟨rfl, by simp⟩
  · intro stat txt hp hf
    simp only at hp hf
    subst hp
    subst hf
    have hred : generate_image decode
        ⟨PostOutcome.httpError stat txt, PostOutcome.success body, dl⟩ p s q =
        extractResult decode
          ⟨PostOutcome.httpError stat txt, PostOutcome.success body, dl⟩ body
          [Event.post (basePayload MODEL p s q),
           Event.log (LogMsg.apiError stat (txt.take 300)),
           Event.log LogMsg.tryingFallback,
           Event.post (fallbackPayload FALLBACK_MODEL p s q)] := by
      simp [generate_image, generate_image_core, hne, basePayload, fallbackPayload]
    obtain ⟨e1, e2, e3⟩ := extractResult_spec decode
      ⟨PostOutcome.httpError stat txt, PostOutcome.success body, dl⟩ body item rest
      [Event.post (basePayload MODEL p s q),
       Event.log (LogMsg.apiError stat (txt.take 300)),
       Event.log LogMsg.tryingFallback,
       Event.post (fallbackPayload FALLBACK_MODEL p s q)] hbody
    refine ⟨?_, ?_, ?_⟩
    · intro sVal hb
      obtain ⟨r1, r2⟩ := e1 sVal hb
      rw [hred, r1, r2]
      exact ⟨rfl, by simp [isGet]⟩
    · intro u hb hu
      obtain ⟨r2, r1⟩ := e2 u hb hu
      refine ⟨by rw [hred, r2]; simp [isGet], ?_⟩
      intro ct hdl
      rw [hred, r1 ct hdl]
    · intro hb hu
      obtain ⟨r1, r2⟩ := e3 hb hu
      rw [hred, r1, r2]
      exact ⟨rfl, by simp⟩

/-- Witness for C8: a fallback success whose item carries only a `url`,
downloaded with one GET. -/
theorem response_extraction_witness :
    ((generate_image (fun _ => ([] : Bytes))
        { primary := PostOutcome.httpError 500 "boom",
          fallback := PostOutcome.success { data := some [{ b64_json := none,
                                                            url := some "U" }] },
          download := GetOutcome.success [9] } "p" "1024x1024" "high").2).filter isGet =
      [Event.get "U"] :=
  (((response_extraction (fun _ => ([] : Bytes))
      { primary := PostOutcome.httpError 500 "boom",
        fallback := PostOutcome.success { data := some [{ b64_json := none,
                                                          url := some "U" }] },
        download := GetOutcome.success [9] } "p" "1024x1024" "high"
      { data := some [{ b64_json := none, url := some "U" }] }
      { b64_json := none, url := some "U" } [] rfl).2 500 "boom" rfl rfl).2.1 "U"
    rfl rfl).1

/-- C9: in every run the success counter starts at zero, never decreases,
is incremented by at most one per iteration — and an increment comes from
exactly one of skip-due-to-exists or successful generate-and-persist,
distinguished by whether the path already existed — so at loop exit it is
at most the number of variations attempted, in both scripts' loops. -/
theorem success_count_invariants :
    (∀ (w : World) (baseDir : String) (cid : Nat) (basePrompt : String)
        (variations : Nat) (size quality : String) (fs0 : FS) (st : LoopState),
      runConcept w baseDir cid basePrompt variations size quality fs0 =
        Except.ok st →
      st.success_count ≤ variations) ∧
    (∀ (w : World) (baseDir : String) (cid : Nat) (basePrompt : String)
        (variations : Nat) (size quality : String) (st : LoopState) (i : Nat)
        (st' : LoopState),
      runStep w baseDir cid basePrompt variations size quality st i = Except.ok st' →
      st.success_count ≤ st'.success_count ∧
        st'.success_count ≤ st.success_count + 1) ∧
    (∀ (w : World) (baseDir : String) (cid : Nat) (basePrompt : String)
        (variations : Nat) (size quality : String) (st : LoopState) (i : Nat)
        (st' : LoopState),
      runStep w baseDir cid basePrompt variations size quality st i = Except.ok st' →
      st'.success_count = st.success_count + 1 →
      (fileExists st.fs (conceptOutputPath baseDir cid i) = true ∧ st'.fs = st.fs) ∨
      (fileExists st.fs (conceptOutputPath baseDir cid i) = false ∧
        ∃ bts, st'.fs = (conceptOutputPath baseDir cid i, bts) :: st.fs)) ∧
    (∀ (w : World) (baseDir : String) (promptOf : String → String)
        (keys : List String) (fs0 : FS) (st : LoopState),
      round3Main w baseDir promptOf keys fs0 = Except.ok st →
      st.success_count ≤ keys.length) := by
  refine ⟨?_, ?_, ?_, ?_⟩
  · intro w baseDir cid bp v size quality fs0 st h
    obtain ⟨_, h2, _⟩ := runLoop_ok_bounds w baseDir cid bp v size quality
      (List.range' 1 v) { fs := fs0, success_count := 0, events := [] } st h
    simpa [List.length_range'] using h2
  · intro w baseDir cid bp v size quality st i st' h
    exact runStep_ok_bounds h
  · intro w baseDir cid bp v size quality st i st' h hinc
    exact runStep_ok_incr h hinc
  · intro w baseDir promptOf keys fs0 st h
    obtain ⟨_, h2⟩ := round3Loop_ok_bounds w baseDir promptOf keys.length
      (List.enumFrom 1 keys) { fs := fs0, success_count := 0, events := [] } st h
    simpa [List.enumFrom_length] using h2

/-- Witness for C9 on a concrete completed run. -/
theorem success_count_invariants_witness :
    ({ fs := [(conceptOutputPath "" 1 1, [7])], success_count := 1,
       events := [Event.log (LogMsg.generating 1),
                  Event.post (basePayload MODEL "P" "1024x1024" "high")] } :
      LoopState).success_count ≤ 1 :=
  success_count_invariants.1 wOK "" 1 "P" 1 "1024x1024" "high" []
    { fs := [(conceptOutputPath "" 1 1, [7])], success_count := 1,
      events := [Event.log (LogMsg.generating 1),
                 Event.post (basePayload MODEL "P" "1024x1024" "high")] } rfl

/-- C5: if the first run succeeded for every variation, a second run with
identical arguments over the resulting filesystem succeeds for every
variation again with zero network calls. -/
theorem second_run_idempotent :
    ∀ (w : World) (baseDir : String) (cid : Nat) (basePrompt : String)
      (variations : Nat) (size quality : String) (fs0 : FS) (st1 : LoopState),
      runConcept w baseDir cid basePrompt variations size quality fs0 =
        Except.ok st1 →
      st1.success_count = variations →
      ∃ st2, runConcept w baseDir cid basePrompt variations size quality st1.fs =
          Except.ok st2 ∧
        st2.success_count = variations ∧
        st2.events.filter isNetCall = [] := by
  intro w baseDir cid bp v size quality fs0 st1 h1 hcount
  have hall : ∀ i ∈ List.range' 1 v,
      fileExists st1.fs (conceptOutputPath baseDir cid i) = true := by
    apply runLoop_all_succeeded w baseDir cid bp v size quality (List.range' 1 v)
      { fs := fs0, success_count := 0, events := [] } st1 h1
    simpa [List.length_range'] using hcount
  refine ⟨_, runLoop_all_skip w baseDir cid bp v size quality (List.range' 1 v)
    { fs := st1.fs, success_count := 0, events := [] } hall, ?_, ?_⟩
  · simp [List.length_range']
  · simp only []
    rw [List.filter_eq_nil_iff]
    intro e he
    simp only [List.nil_append, List.mem_map] at he
    obtain ⟨i, _, rfl⟩ := he
    simp [isNetCall]

/-- Witness for C5: a concrete all-successful 2-variation first run
followed by a network-silent second run. -/
theorem second_run_idempotent_witness :
    ∃ st2, runConcept wOK "" 1 "P" 2 "1024x1024" "high"
        ({ fs := [(conceptOutputPath "" 1 2, [7]), (conceptOutputPath "" 1 1, [7])],
           success_count := 2,
           events := [Event.log (LogMsg.generating 1),
                      Event.post (basePayload MODEL "P" "1024x1024" "high"),
                      Event.sleep 10,
                      Event.log (LogMsg.generating 2),
                      Event.post (basePayload MODEL (variationPrompt "P" 2)
                        "1024x1024" "high")] } : LoopState).fs =
        Except.ok st2 ∧
      st2.success_count = 2 ∧
      st2.events.filter isNetCall = [] :=
  second_run_idempotent wOK "" 1 "P" 2 "1024x1024" "high" []
    { fs := [(conceptOutputPath "" 1 2, [7]), (conceptOutputPath "" 1 1, [7])],
      success_count := 2,
      events := [Event.log (LogMsg.generating 1),
                 Event.post (basePayload MODEL "P" "1024x1024" "high"),
                 Event.sleep 10,
                 Event.log (LogMsg.generating 2),
                 Event.post (basePayload MODEL (variationPrompt "P" 2)
                   "1024x1024" "high")] } rfl rfl

/-- C1 counterexample: a transport error on the primary call of the very
first variation is NOT caught — it aborts the whole 2-variation batch
instead of being converted into a per-image failure. -/
theorem transport_error_aborts_batch :
    runConcept wTransport "" 1 "P" 2 "1024x1024" "high" [] =
      Except.error Exc.transportError := rfl

/-- C1 amended: HTTP errors on the generation POSTs and
`UnexpectedResponseShape` are caught at single-image granularity, logged,
leave the succeeded count unchanged and let the loop continue; but
`TransportError` and `DecodeError` are not caught and abort the batch. -/
theorem per_image_error_handling :
    (∀ (w : World) (baseDir : String) (cid : Nat) (basePrompt : String)
        (variations : Nat) (size quality : String) (st : LoopState) (i : Nat)
        (stat stat2 : Nat) (txt txt2 : String),
      (w.net i).primary = PostOutcome.httpError stat txt →
      (w.net i).fallback = PostOutcome.httpError stat2 txt2 →
      fileExists st.fs (conceptOutputPath baseDir cid i) = false →
      ∃ st', runStep w baseDir cid basePrompt variations size quality st i =
          Except.ok st' ∧
        st'.success_count = st.success_count ∧
        Event.log (LogMsg.failedVariation i) ∈ st'.events ∧
        Event.log (LogMsg.fallbackFailed stat2 (txt2.take 300)) ∈ st'.events) ∧
    (∀ (w : World) (baseDir : String) (cid : Nat) (basePrompt : String)
        (variations : Nat) (size quality : String) (st : LoopState) (i : Nat)
        (body : RespBody) (rest : List RespItem),
      (w.net i).primary = PostOutcome.success body →
      body.data = some (⟨none, none⟩ :: rest) →
      fileExists st.fs (conceptOutputPath baseDir cid i) = false →
      ∃ st', runStep w baseDir cid basePrompt variations size quality st i =
          Except.ok st' ∧
        st'.success_count = st.success_count ∧
        Event.log LogMsg.unexpectedFormat ∈ st'.events) ∧
    (∀ (w : World) (baseDir : String) (cid : Nat) (basePrompt : String)
        (variations : Nat) (size quality : String) (st : LoopState) (i : Nat),
      (w.net i).primary = PostOutcome.transportError →
      fileExists st.fs (conceptOutputPath baseDir cid i) = false →
      runStep w baseDir cid basePrompt variations size quality st i =
        Except.error Exc.transportError) ∧
    (∀ (w : World) (baseDir : String) (cid : Nat) (basePrompt : String)
        (variations : Nat) (size quality : String) (st : LoopState) (i : Nat)
        (body : RespBody) (sVal : String) (url : Option String)
        (rest : List RespItem),
      (w.net i).primary = PostOutcome.success body →
      body.data = some (⟨some sVal, url⟩ :: rest) →
      w.valid (w.decode sVal) = false →
      fileExists st.fs (conceptOutputPath baseDir cid i) = false →
      runStep w baseDir cid basePrompt variations size quality st i =
        Except.error Exc.decodeError) ∧
    (∀ (w : World) (baseDir : String) (cid : Nat) (basePrompt : String)
        (variations : Nat) (size quality : String) (st : LoopState) (i : Nat)
        (body : RespBody) (u : String) (rest : List RespItem) (stat : Nat)
        (txt : String),
      (w.net i).primary = PostOutcome.success body →
      body.data = some (⟨none, some u⟩ :: rest) →
      (w.net i).download = GetOutcome.httpError stat txt →
      fileExists st.fs (conceptOutputPath baseDir cid i) = false →
      runStep w baseDir cid basePrompt variations size quality st i =
        Except.error (Exc.httpStatusError stat txt)) := by
  have hne : MODEL ≠ FALLBACK_MODEL := by decide
  refine ⟨?_, ?_, ?_, ?_, ?_⟩
  · intro w baseDir cid bp v size quality st i stat stat2 txt txt2 hp hf hex
    obtain ⟨hgen1, hgen2⟩ := generate_core_fallback_failed MODEL FALLBACK_MODEL
      w.decode (w.net i) (variationPrompt bp i) size quality stat stat2 txt txt2
      hp hf hne
    refine ⟨_, runStep_genfail hex hgen1, ?_, ?_, ?_⟩
    · rw [addPacing_success_count]
    · apply addPacing_mem
      simp
    · apply addPacing_mem
      have : Event.log (LogMsg.fallbackFailed stat2 (txt2.take 300)) ∈
          (generate_image w.decode (w.net i) (variationPrompt bp i) size quality).2 := by
        rw [show (generate_image w.decode (w.net i)
            (variationPrompt bp i) size quality).2 =
          (generate_image_core MODEL FALLBACK_MODEL w.decode (w.net i)
            (variationPrompt bp i) size quality).2 from rfl, hgen2]
        simp
      simp only [List.mem_append]
      exact Or.inl (Or.inr this)
  · intro w baseDir cid bp v size quality st i body rest hp hbody hex
    obtain ⟨hgen1, hmem⟩ := generate_unexpected w.decode (w.net i)
      (variationPrompt bp i) size quality body rest hp hbody
    refine ⟨_, runStep_genfail hex hgen1, ?_, ?_⟩
    · rw [addPacing_success_count]
    · apply addPacing_mem
      simp only [List.mem_append]
      exact Or.inl (Or.inr hmem)
  · intro w baseDir cid bp v size quality st i hp hex
    exact runStep_primary_transport w baseDir cid bp v size quality st i hex hp
  · intro w baseDir cid bp v size quality st i body sVal url rest hp hbody hval hex
    have hred : generate_image w.decode (w.net i) (variationPrompt bp i) size quality =
        extractResult w.decode (w.net i) body
          [Event.post (basePayload MODEL (variationPrompt bp i) size quality)] := by
      simp [generate_image, generate_image_core, hp, basePayload]
    obtain ⟨e1, _, _⟩ := extractResult_spec w.decode (w.net i) body ⟨some sVal, url⟩
      rest [Event.post (basePayload MODEL (variationPrompt bp i) size quality)] hbody
    obtain ⟨r1, _⟩ := e1 sVal rfl
    exact runStep_decode_error hex (by rw [hred]; exact r1) hval
  · intro w baseDir cid bp v size quality st i body u rest stat txt hp hbody hdl hex
    have hred : generate_image w.decode (w.net i) (variationPrompt bp i) size quality =
        extractResult w.decode (w.net i) body
          [Event.post (basePayload MODEL (variationPrompt bp i) size quality)] := by
      simp [generate_image, generate_image_core, hp, basePayload]
    have h1 : (extractResult w.decode (w.net i) body
        [Event.post (basePayload MODEL (variationPrompt bp i) size quality)]).1 =
        Except.error (Exc.httpStatusError stat txt) := by
      simp [extractResult, hbody, hdl]
    exact runStep_gen_error hex (by rw [hred]; exact h1)

/-- Witness for the amended C1 at a concrete double-HTTP-failure world. -/
theorem per_image_error_handling_witness :
    ∃ st', runStep wHttpFail "" 1 "P" 2 "1024x1024" "high"
        { fs := [], success_count := 0, events := [] } 1 = Except.ok st' ∧
      st'.success_count = ({ fs := [], success_count := 0, events := [] } :
        LoopState).success_count ∧
      Event.log (LogMsg.failedVariation 1) ∈ st'.events ∧
      Event.log (LogMsg.fallbackFailed 503 ("fallback boom".take 300)) ∈ st'.events :=
  per_image_error_handling.1 wHttpFail "" 1 "P" 2 "1024x1024" "high"
    { fs := [], success_count := 0, events := [] } 1 500 503 "boom" "fallback boom"
    rfl rfl rfl

/-- C7 counterexample: with `v02.png` existing and 2 variations requested
there is exactly one network-issuing iteration — so no pair of
consecutive network-issuing iterations exists — yet the run still pauses
once (after the final network call, before the skipped iteration). -/
theorem pacing_not_between_consecutive :
    ((runEvents (runConcept wOK "" 1 "P" 2 "1024x1024" "high"
        [(conceptOutputPath "" 1 2, [0])])).filter isSleep).length = 1 ∧
    ((runEvents (runConcept wOK "" 1 "P" 2 "1024x1024" "high"
        [(conceptOutputPath "" 1 2, [0])])).filter isNetCall).length = 1 :=
  ⟨rfl, rfl⟩

/-- C7 amended: the fixed pacing pause runs at the end of every
non-skipped iteration whose index is below the variation count — so never
after a skip, never before the first network call, always the same fixed
duration (1s resp. 1.5s) — but it may also run after the final
network-issuing iteration when a later variation is skipped. -/
theorem pacing_schedule :
    (∀ (w : World) (baseDir : String) (cid : Nat) (basePrompt : String)
        (variations : Nat) (size quality : String) (st : LoopState) (i : Nat)
        (st' : LoopState),
      fileExists st.fs (conceptOutputPath baseDir cid i) = true →
      runStep w baseDir cid basePrompt variations size quality st i = Except.ok st' →
      st'.events.filter isSleep = st.events.filter isSleep) ∧
    (∀ (w : World) (baseDir : String) (cid : Nat) (basePrompt : String)
        (variations : Nat) (size quality : String) (st : LoopState) (i : Nat)
        (st' : LoopState),
      fileExists st.fs (conceptOutputPath baseDir cid i) = false →
      runStep w baseDir cid basePrompt variations size quality st i = Except.ok st' →
      (i < variations →
        st'.events.filter isSleep = st.events.filter isSleep ++ [Event.sleep 10] ∧
        st'.events.getLast? = some (Event.sleep 10)) ∧
      (¬ i < variations →
        st'.events.filter isSleep = st.events.filter isSleep)) ∧
    (∀ (w : World) (baseDir : String) (promptOf : String → String) (total : Nat)
        (st : LoopState) (i : Nat) (key : String) (st' : LoopState),
      fileExists st.fs (round3OutputPath baseDir key) = false →
      round3Step w baseDir promptOf total st (i, key) = Except.ok st' →
      (i < total →
        st'.events.filter isSleep = st.events.filter isSleep ++ [Event.sleep 15] ∧
        st'.events.getLast? = some (Event.sleep 15)) ∧
      (¬ i < total →
        st'.events.filter isSleep = st.events.filter isSleep)) ∧
    (∀ (w : World) (baseDir : String) (cid : Nat) (basePrompt : String)
        (variations : Nat) (size quality : String) (fs0 : FS) (st : LoopState),
      runConcept w baseDir cid basePrompt variations size quality fs0 =
        Except.ok st →
      (∀ e ∈ st.events, isSleep e = true → e = Event.sleep 10) ∧
      (∀ t, ((st.events.filter isObs).head?) ≠ some (Event.sleep t))) := by
  refine ⟨?_, ?_, ?_, ?_⟩
  · intro w baseDir cid bp v size quality st i st' hex hok
    rw [runStep_skip w baseDir cid bp v size quality st i hex] at hok
    rw [← Except.ok.inj hok]
    simp [List.filter_append, isSleep]
  · intro w baseDir cid bp v size quality st i st' hex hok
    exact runStep_pacing hex hok
  · intro w baseDir promptOf total st i key st' hex hok
    exact round3Step_pacing hex hok
  · intro w baseDir cid bp v size quality fs0 st h
    exact runLoop_pacing w baseDir cid bp v size quality (List.range' 1 v)
      { fs := fs0, success_count := 0, events := [] } st h
      (by intro e he; cases he) (by intro t; simp)

/-- Witness for the amended C7 at a concrete non-final iteration. -/
theorem pacing_schedule_witness :
    ([Event.log (LogMsg.generating 1),
      Event.post (basePayload MODEL "P" "1024x1024" "high"),
      Event.sleep 10] : List Event).filter isSleep = [Event.sleep 10] :=
  ((pacing_schedule.2.1 wOK "" 1 "P" 2 "1024x1024" "high"
      { fs := [], success_count := 0, events := [] } 1
      { fs := [(conceptOutputPath "" 1 1, [7])], success_count := 1,
        events := [Event.log (LogMsg.generating 1),
                   Event.post (basePayload MODEL "P" "1024x1024" "high"),
                   Event.sleep 10] }
      rfl rfl).1 (by decide)).1

end Vermillion
